import Mathlib

/-!
# Expense-Application backend: a shallow embedding

The development follows the Express backend under `backend/src`:

* `middleware/auth.js` (`authenticateToken`),
* `routes/transactions.js` (`transactionValidation`),
* `controllers/transactionController.js` (`getTransactions`, `getTransactionStats`,
  `updateTransaction`, `deleteTransaction`),
* `database/db.js` (the `transactions` table).

JavaScript numbers are idealised: a finite number is an exact rational, `NaN` and the two
infinities are separate values; the sign of zero, binary rounding and overflow to infinity are
not modelled (integers below `2 ^ 53` behave exactly as here).  Amounts in the `REAL` column are
exact rationals as well.  The SQLite engine is modelled on the statements the controllers send to
it; dates are the `TEXT` values the clients sent, compared as SQLite compares text.
-/

namespace ExpenseApp

/-! ## JavaScript numbers -/

/-- A JavaScript number. -/
inductive JsNum
  | nan
  | posInf
  | negInf
  | fin (q : ℚ)
  deriving DecidableEq

namespace JsNum

/-- Unary minus. -/
def neg : JsNum → JsNum
  | nan => nan
  | posInf => negInf
  | negInf => posInf
  | fin q => fin (-q)

/-- The infinity that has the sign of `q` (`q ≠ 0`). -/
def infOfSign (q : ℚ) : JsNum := if 0 < q then posInf else negInf

/-- The operator `a - b` on numbers. -/
def sub : JsNum → JsNum → JsNum
  | nan, _ => nan
  | _, nan => nan
  | fin a, fin b => fin (a - b)
  | fin _, posInf => negInf
  | fin _, negInf => posInf
  | posInf, posInf => nan
  | negInf, negInf => nan
  | posInf, _ => posInf
  | negInf, _ => negInf

/-- The operator `a * b` on numbers. -/
def mul : JsNum → JsNum → JsNum
  | nan, _ => nan
  | _, nan => nan
  | fin a, fin b => fin (a * b)
  | fin a, posInf => if a = 0 then nan else infOfSign a
  | fin a, negInf => if a = 0 then nan else infOfSign (-a)
  | posInf, fin b => if b = 0 then nan else infOfSign b
  | negInf, fin b => if b = 0 then nan else infOfSign (-b)
  | posInf, posInf => posInf
  | negInf, negInf => posInf
  | posInf, negInf => negInf
  | negInf, posInf => negInf

/-- The operator `a / b` on numbers (a zero divisor is taken as `+0`). -/
def div : JsNum → JsNum → JsNum
  | nan, _ => nan
  | _, nan => nan
  | fin a, fin b => if b = 0 then (if a = 0 then nan else infOfSign a) else fin (a / b)
  | fin _, posInf => fin 0
  | fin _, negInf => fin 0
  | posInf, fin b => if 0 ≤ b then posInf else negInf
  | negInf, fin b => if 0 ≤ b then negInf else posInf
  | posInf, posInf => nan
  | posInf, negInf => nan
  | negInf, posInf => nan
  | negInf, negInf => nan

/-- `Math.ceil`. -/
def ceil : JsNum → JsNum
  | fin q => fin (⌈q⌉ : ℤ)
  | x => x

/-- The comparison `a >= b` (false as soon as one side is `NaN`). -/
def ge : JsNum → JsNum → Bool
  | nan, _ => false
  | _, nan => false
  | fin a, fin b => decide (b ≤ a)
  | posInf, _ => true
  | _, negInf => true
  | negInf, _ => false
  | fin _, posInf => false

/-- `Number.isInteger`. -/
def isInteger : JsNum → Bool
  | fin q => decide (q.den = 1)
  | _ => false

end JsNum

/-! ## Reading numbers from strings -/

/-- White space that `Number`, `parseInt`, `parseFloat` and `String.prototype.trim` strip. -/
def isStrWhiteSpace (c : Char) : Bool :=
  [0x09, 0x0A, 0x0B, 0x0C, 0x0D, 0x20, 0xA0, 0x1680, 0x2028, 0x2029, 0x202F, 0x205F, 0x3000,
    0xFEFF].contains c.toNat || (0x2000 ≤ c.toNat && c.toNat ≤ 0x200A)

/-- Drop leading white space. -/
def trimStart (cs : List Char) : List Char := cs.dropWhile isStrWhiteSpace

/-- Drop leading and trailing white space. -/
def trimBoth (cs : List Char) : List Char :=
  ((trimStart cs).reverse.dropWhile isStrWhiteSpace).reverse

/-- The value of a character as a digit in radix 36. -/
def digitOf (c : Char) : Option Nat :=
  if c.isDigit then some (c.toNat - 48)
  else if c.isLower then some (c.toNat - 97 + 10)
  else if c.isUpper then some (c.toNat - 65 + 10)
  else none

/-- The value of a character as a digit of the given radix. -/
def radixDigit (radix : Nat) (c : Char) : Option Nat :=
  (digitOf c).filter (fun d => decide (d < radix))

/-- Longest run of digits of the given radix at the head of the input, and the unread rest. -/
def readDigits (radix : Nat) : List Char → List Nat × List Char
  | [] => ([], [])
  | c :: cs =>
    match radixDigit radix c with
    | some d => (d :: (readDigits radix cs).1, (readDigits radix cs).2)
    | none => ([], c :: cs)

/-- The number written by a list of digits, most significant first. -/
def digitsValue (radix : Nat) (ds : List Nat) : Nat :=
  ds.foldl (fun acc d => radix * acc + d) 0

/-- An optional sign: whether it is a minus, and the unread rest. -/
def readSign : List Char → Bool × List Char
  | '+' :: r => (false, r)
  | '-' :: r => (true, r)
  | r => (false, r)

/-- An exponent part `e[+-]digits`: its value and the unread rest. -/
def readExponent : List Char → Option (Int × List Char)
  | [] => none
  | e :: rest =>
    if e = 'e' ∨ e = 'E' then
      match readDigits 10 (readSign rest).2 with
      | ([], _) => none
      | (d :: ds, rest2) =>
        some (if (readSign rest).1 then -(digitsValue 10 (d :: ds) : Int)
              else (digitsValue 10 (d :: ds) : Int), rest2)
    else none

/-- A decimal literal read from text: `mantissa * 10 ^ exp10`. -/
structure DecLit where
  mantissa : Nat
  exp10 : Int
  deriving DecidableEq

/-- The rational a decimal literal denotes. -/
def DecLit.toRat (d : DecLit) : ℚ :=
  if 0 ≤ d.exp10 then (d.mantissa : ℚ) * (10 : ℚ) ^ d.exp10.toNat
  else (d.mantissa : ℚ) / (10 : ℚ) ^ (-d.exp10).toNat

/-- Longest unsigned decimal literal `digits[.digits][exponent]` or `.digits[exponent]` at the
head of the input, and the unread rest. -/
def readDecimal (cs : List Char) : Option (DecLit × List Char) :=
  let ip := readDigits 10 cs
  let fp : List Nat × List Char :=
    match ip.2 with
    | '.' :: t => readDigits 10 t
    | r => ([], r)
  if ip.1 = [] ∧ fp.1 = [] then none
  else
    let mant := digitsValue 10 (ip.1 ++ fp.1)
    match readExponent fp.2 with
    | some (e, rest) => some (⟨mant, e - fp.1.length⟩, rest)
    | none => some (⟨mant, -(fp.1.length : Int)⟩, fp.2)

/-- An unsigned `StrDecimalLiteral` at the head of the input: `Infinity` or a decimal literal. -/
def readStrDecimal (cs : List Char) : Option (JsNum × List Char) :=
  if "Infinity".toList.isPrefixOf cs then some (JsNum.posInf, cs.drop 8)
  else (readDecimal cs).map (fun p => (JsNum.fin p.1.toRat, p.2))

/-- A signed decimal literal that must fill the whole input, else `NaN`. -/
def signedDecimal (cs : List Char) : JsNum :=
  match readStrDecimal (readSign cs).2 with
  | some (v, []) => if (readSign cs).1 then v.neg else v
  | _ => JsNum.nan

/-- The digits of a `0x`, `0o` or `0b` literal, which must fill the whole input, else `NaN`. -/
def nonDecimal (radix : Nat) (cs : List Char) : JsNum :=
  match readDigits radix cs with
  | (d :: ds, []) => JsNum.fin (digitsValue radix (d :: ds))
  | _ => JsNum.nan

/-- `Number(s)` on a string: the coercion the operators `-`, `*` and `/` apply to a string. -/
def strToNumber (s : String) : JsNum :=
  match trimBoth s.toList with
  | [] => JsNum.fin 0
  | '0' :: x :: rest =>
    if x = 'x' ∨ x = 'X' then nonDecimal 16 rest
    else if x = 'o' ∨ x = 'O' then nonDecimal 8 rest
    else if x = 'b' ∨ x = 'B' then nonDecimal 2 rest
    else signedDecimal ('0' :: x :: rest)
  | cs => signedDecimal cs

/-- `parseFloat(s)`: the longest numeric head of the string after leading white space. -/
def parseFloat (s : String) : JsNum :=
  match readStrDecimal (readSign (trimStart s.toList)).2 with
  | some (v, _) => if (readSign (trimStart s.toList)).1 then v.neg else v
  | none => JsNum.nan

/-- The digits `parseInt` reads after the sign: hexadecimal after `0x`, decimal otherwise. -/
def readIntDigits : List Char → List Nat × Nat
  | '0' :: x :: rest =>
    if x = 'x' ∨ x = 'X' then ((readDigits 16 rest).1, 16)
    else ((readDigits 10 ('0' :: x :: rest)).1, 10)
  | cs => ((readDigits 10 cs).1, 10)

/-- `parseInt(s)` without a radix argument. -/
def parseInt (s : String) : JsNum :=
  match readIntDigits (readSign (trimStart s.toList)).2 with
  | ([], _) => JsNum.nan
  | (d :: ds, radix) =>
    if (readSign (trimStart s.toList)).1 then JsNum.fin (-(digitsValue radix (d :: ds) : ℚ))
    else JsNum.fin (digitsValue radix (d :: ds) : ℚ)

/-! ## Data model (`database/db.js`) -/

/-- A row of the `transactions` table.  `date` is the text the client sent, `created_at` and
`updated_at` are the engine's `CURRENT_TIMESTAMP` readings, as seconds. -/
structure Transaction where
  id : Nat
  user_id : Nat
  type : String
  amount : ℚ
  description : String
  category : String
  payment_method : Option String
  date : String
  created_at : Nat
  updated_at : Nat
  deriving DecidableEq

/-- The payload of a verified token (`generateToken` in `authController.js`, plus the
timestamps the signing library adds). -/
structure Claims where
  id : Nat
  email : String
  name : String
  firstname : String
  iat : Nat
  exp : Nat
  deriving DecidableEq

/-- One entry of `errors.array()` of express-validator. -/
structure FieldError where
  location : String
  path : String
  msg : String
  value : String
  deriving DecidableEq

/-- The `pagination` object of the list response. -/
structure Pagination where
  page : JsNum
  limit : JsNum
  total : Nat
  pages : JsNum
  deriving DecidableEq

/-- The `stats` object of the statistics response. -/
structure Stats where
  total_revenue : ℚ
  total_expense : ℚ
  revenue_count : Nat
  expense_count : Nat
  balance : ℚ
  net_income : ℚ
  deriving DecidableEq

/-- One row of `categoryBreakdown`. -/
structure CategoryStat where
  category : String
  type : String
  total : ℚ
  count : Nat
  deriving DecidableEq

/-- The `transaction` object of the create response: the new id and the fields of the body as
the handler read them. -/
structure CreatedTransaction where
  id : Nat
  type : Option String
  amount : Option String
  description : Option String
  category : Option String
  payment_method : Option String
  date : Option String
  deriving DecidableEq

/-- The `user` object of the register and login responses; the same four fields are the
payload handed to `generateToken`. -/
structure UserSummary where
  id : Nat
  name : String
  firstname : String
  email : String
  deriving DecidableEq

/-- The JSON bodies the middleware and the handlers send. -/
inductive ResBody
  | message (message : String)
  | validation (message : String) (errors : List FieldError)
  | failure (message : String) (error : String)
  | listing (transactions : List Transaction) (pagination : Pagination)
  | statistics (period : String) (stats : Stats) (categoryBreakdown : List CategoryStat)
  | created (message : String) (transaction : CreatedTransaction)
  | session (message : String) (token : String) (user : UserSummary)
  deriving DecidableEq

/-- An HTTP response: `res.status(s).json(body)`; `res.json(body)` has status 200. -/
structure Response where
  status : Nat
  body : ResBody
  deriving DecidableEq

/-! ## `middleware/auth.js` -/

/-- An error thrown by `jwt.verify`; the middleware only reads its `name`. -/
structure JwtError where
  name : String
  message : String
  deriving DecidableEq

/-- What has happened to a request: the header it came with, `req.user`, the response sent (if
any) and how many times `next` was called. -/
structure Exchange where
  authorization : Option String
  user : Option Claims
  response : Option Response
  nextCalls : Nat
  deriving DecidableEq

/-- `str.split(' ')` on the characters of a string. -/
def splitSpaces : List Char → List (List Char)
  | [] => [[]]
  | c :: cs =>
    if c = ' ' then [] :: splitSpaces cs
    else
      match splitSpaces cs with
      | [] => [[c]]
      | w :: ws => (c :: w) :: ws

/-- `authHeader && authHeader.split(' ')[1]`: `none` is `undefined`. -/
def headerToken (authHeader : Option String) : Option String :=
  match authHeader with
  | none => none
  | some h => if h = "" then some "" else ((splitSpaces h.toList).get? 1).map String.mk

/-- Truthiness of a value that is `undefined` or a string. -/
def truthy : Option String → Bool
  | none => false
  | some s => s != ""

/-- `authenticateToken(req, res, next)`, with `jwt.verify(·, JWT_SECRET)` as a parameter. -/
def authenticateToken (verify : String → Except JwtError Claims) (x : Exchange) : Exchange :=
  match headerToken x.authorization with
  | none =>
    { x with response := some ⟨401, .message "Access denied. No token provided."⟩ }
  | some token =>
    if token = "" then
      { x with response := some ⟨401, .message "Access denied. No token provided."⟩ }
    else
      match verify token with
      | .ok decoded => { x with user := some decoded, nextCalls := x.nextCalls + 1 }
      | .error error =>
        if error.name = "TokenExpiredError" then
          { x with response := some ⟨401, .message "Token expired. Please log in again."⟩ }
        else
          { x with response := some ⟨403, .message "Invalid token."⟩ }

/-! ## `routes/transactions.js`: validation -/

/-- The body of a create or update request: every field is the text of the value sent, `none`
when the field is absent. -/
structure Body where
  type : Option String
  amount : Option String
  description : Option String
  category : Option String
  payment_method : Option String
  date : Option String
  deriving DecidableEq

/-- The string express-validator hands to a validator: an absent field reads as `''`. -/
def fieldText (v : Option String) : String := v.getD ""

/-- Skip an optional fraction part `.digits`. -/
def skipFraction : List Char → List Char
  | '.' :: t => (readDigits 10 t).2
  | r => r

/-- Whether the input is empty or is exactly one exponent part. -/
def endsWithExponent : List Char → Bool
  | [] => true
  | c :: cs =>
    match readExponent (c :: cs) with
    | some (_, []) => true
    | _ => false

/-- The shape validator.js `isFloat` asks for: `[+-]?[0-9]*(\.[0-9]*)?([eE][+-]?[0-9]+)?`. -/
def isFloatSyntax (cs : List Char) : Bool :=
  endsWithExponent (skipFraction (readDigits 10 (readSign cs).2).2)

/-- The characters a float literal is made of. -/
def floatChar (c : Char) : Prop :=
  c.isDigit = true ∨ c = '.' ∨ c = 'e' ∨ c = 'E' ∨ c = '+' ∨ c = '-'

/-- `str.replace(',', '.')`: the first comma becomes a dot. -/
def replaceComma : List Char → List Char
  | [] => []
  | c :: cs => if c = ',' then '.' :: cs else c :: replaceComma cs

/-- validator.js `isFloat(str, { min })`. -/
def isFloat (min : ℚ) (str : String) : Bool :=
  !(["", ".", ",", "-", "+"].contains str) && isFloatSyntax str.toList &&
    (parseFloat (String.mk (replaceComma str.toList))).ge (JsNum.fin min)

/-- validator.js `isInt(str)` called without options: `[+-]?[0-9]+`. -/
def isInt (str : String) : Bool :=
  match (readSign str.toList).2 with
  | [] => false
  | c :: cs => (c :: cs).all Char.isDigit

/-- validator.js `trim(str)`. -/
def trim (str : String) : String := String.mk (trimBoth str.toList)

/-- validator.js `isLength(str, { min })`, counting code points. -/
def isLength (min : Nat) (str : String) : Bool := decide (min ≤ str.length)

/-- The validation chains `transactionValidation`, run on a body: the errors in the order of
the chains.  `isISO8601` stands for validator.js `isISO8601(str)` called without options. -/
def transactionValidation (isISO8601 : String → Bool) (body : Body) : List FieldError :=
  (if ["expense", "revenue"].contains (fieldText body.type) then []
   else [⟨"body", "type", "Type must be either \"expense\" or \"revenue\"",
          fieldText body.type⟩]) ++
  (if isFloat (1 / 100) (fieldText body.amount) then []
   else [⟨"body", "amount", "Amount must be a positive number", fieldText body.amount⟩]) ++
  (if isLength 1 (trim (fieldText body.description)) then []
   else [⟨"body", "description", "Description is required",
          trim (fieldText body.description)⟩]) ++
  (if isISO8601 (fieldText body.date) then []
   else [⟨"body", "date", "Date must be a valid ISO8601 date (YYYY-MM-DD)",
          fieldText body.date⟩])

/-- The chain `param('id').isInt()` of the update and delete routes. -/
def idValidation (id : String) : List FieldError :=
  if isInt id then [] else [⟨"params", "id", "Transaction ID must be an integer", id⟩]

/-- The body after the sanitizer `.trim()` of the description chain has run. -/
def sanitized (body : Body) : Body :=
  { body with description := some (trim (fieldText body.description)) }

/-! ## The storage engine, on the statements of `transactionController.js` -/

/-- A value bound to a `?` placeholder. -/
inductive SqlValue
  | null
  | num (n : JsNum)
  | text (s : String)
  deriving DecidableEq

/-- An error the engine reports; the handlers read its `message`. -/
structure DbError where
  message : String
  deriving DecidableEq

/-- What `database.run` resolves to, as far as the handlers read it. -/
structure RunResult where
  changes : Nat
  deriving DecidableEq

/-- The storage calls a handler can make. -/
inductive DbCall
  | run
  | get
  | all
  deriving DecidableEq

/-- A field of the body as a bound parameter: an absent field is bound as `NULL`. -/
def bindField : Option String → SqlValue
  | none => .null
  | some s => .text s

/-- White space for the engine: space, tab, line feed, vertical tab, form feed, carriage
return. -/
def isSqlSpace (c : Char) : Bool := [0x20, 0x09, 0x0A, 0x0B, 0x0C, 0x0D].contains c.toNat

/-- Drop the engine's white space on both sides. -/
def sqlTrim (cs : List Char) : List Char :=
  ((cs.dropWhile isSqlSpace).reverse.dropWhile isSqlSpace).reverse

/-- The number a text stands for when it is compared with or stored in a numeric column: a
signed decimal literal between optional white space. -/
def sqlNumeric (s : String) : Option ℚ :=
  match readDecimal (readSign (sqlTrim s.toList)).2 with
  | some (d, []) => some (if (readSign (sqlTrim s.toList)).1 then -d.toRat else d.toRat)
  | _ => none

/-- The comparison `column = ?` for an integer column (`id`, `user_id`). -/
def intEquals (column : Nat) : SqlValue → Bool
  | .num (.fin q) => decide ((column : ℚ) = q)
  | .text s => decide (sqlNumeric s = some (column : ℚ))
  | _ => false

/-- The row an `UPDATE ... SET type = ?, amount = ?, description = ?, category = ?,
payment_method = ?, date = ?, updated_at = CURRENT_TIMESTAMP` writes over `r`, or the
constraint of the table that the new values break.  A text that is not numeric has no place in
the `amount` column of this model; validation lets none through. -/
def updatedRow (now : Nat) (type amount description category payment_method date : SqlValue)
    (r : Transaction) : Except DbError Transaction :=
  match type, amount, description, category, date with
  | .null, _, _, _, _ => .error ⟨"SQLITE_CONSTRAINT: NOT NULL constraint failed: transactions.type"⟩
  | _, .null, _, _, _ =>
    .error ⟨"SQLITE_CONSTRAINT: NOT NULL constraint failed: transactions.amount"⟩
  | _, _, .null, _, _ =>
    .error ⟨"SQLITE_CONSTRAINT: NOT NULL constraint failed: transactions.description"⟩
  | _, _, _, .null, _ =>
    .error ⟨"SQLITE_CONSTRAINT: NOT NULL constraint failed: transactions.category"⟩
  | _, _, _, _, .null => .error ⟨"SQLITE_CONSTRAINT: NOT NULL constraint failed: transactions.date"⟩
  | .text t, .text a, .text d, .text c, .text dt =>
    if t = "expense" ∨ t = "revenue" then
      match sqlNumeric a with
      | some q =>
        .ok { r with
              type := t, amount := q, description := d, category := c,
              payment_method :=
                match payment_method with
                | .text p => some p
                | _ => none,
              date := dt, updated_at := now }
      | none => .error ⟨"amount is not numeric"⟩
    else .error ⟨"SQLITE_CONSTRAINT: CHECK constraint failed: type IN ('expense', 'revenue')"⟩
  | _, _, _, _, _ => .error ⟨"value of a kind the controllers never bind"⟩

/-- The statement of `updateTransaction`:
`UPDATE transactions SET ... WHERE id = ? AND user_id = ?`, with its eight parameters in order.
Rows that do not match are left as they are, and a constraint is only checked on a row that
matches. -/
def runUpdate (rows : List Transaction) (now : Nat)
    (type amount description category payment_method date id userId : SqlValue) :
    Except DbError (RunResult × List Transaction) :=
  match rows with
  | [] => .ok (⟨0⟩, [])
  | r :: rest =>
    match runUpdate rest now type amount description category payment_method date id userId with
    | .error e => .error e
    | .ok (res, rest') =>
      if intEquals r.id id && intEquals r.user_id userId then
        match updatedRow now type amount description category payment_method date r with
        | .error e => .error e
        | .ok r' => .ok (⟨res.changes + 1⟩, r' :: rest')
      else .ok (res, r :: rest')

/-- The statement of `deleteTransaction`: `DELETE FROM transactions WHERE id = ? AND user_id = ?`. -/
def runDelete (rows : List Transaction) (id userId : SqlValue) : RunResult × List Transaction :=
  (⟨(rows.filter (fun r => intEquals r.id id && intEquals r.user_id userId)).length⟩,
    rows.filter (fun r => !(intEquals r.id id && intEquals r.user_id userId)))

/-- The pieces of SQL text `getTransactions` concatenates into its two queries. -/
inductive Fragment
  | selectRows
  | selectCount
  | andType
  | andCategory
  | andDateGe
  | andDateLe
  | orderBy
  | limitOffset
  deriving DecidableEq

/-- The text of a piece, as written in the controller. -/
def Fragment.text : Fragment → String
  | .selectRows => "SELECT * FROM transactions WHERE user_id = ?"
  | .selectCount => "SELECT COUNT(*) as total FROM transactions WHERE user_id = ?"
  | .andType => " AND type = ?"
  | .andCategory => " AND category = ?"
  | .andDateGe => " AND date >= ?"
  | .andDateLe => " AND date <= ?"
  | .orderBy => " ORDER BY date DESC, created_at DESC"
  | .limitOffset => " LIMIT ? OFFSET ?"

/-- The SQL text a list of pieces spells. -/
def sqlText (sql : List Fragment) : String := String.join (sql.map Fragment.text)

/-- The number of `?` placeholders in a text. -/
def placeholders (text : String) : Nat := text.toList.count '?'

/-- Whether a piece is one of the optional conjuncts of the `WHERE` clause. -/
def Fragment.isConjunct : Fragment → Bool
  | .andType => true
  | .andCategory => true
  | .andDateGe => true
  | .andDateLe => true
  | _ => false

/-- A `SELECT` statement as the engine reads it. -/
structure SelectPlan where
  count : Bool
  conjuncts : List Fragment
  ordered : Bool
  limited : Bool
  deriving DecidableEq

/-- Read a statement: a head, conjuncts, then optionally `ORDER BY` and `LIMIT ? OFFSET ?`. -/
def parseSelect : List Fragment → Option SelectPlan
  | [] => none
  | h :: rest =>
    if h = .selectRows ∨ h = .selectCount then
      match rest.dropWhile Fragment.isConjunct with
      | [] => some ⟨h = .selectCount, rest.takeWhile Fragment.isConjunct, false, false⟩
      | [.orderBy] => some ⟨h = .selectCount, rest.takeWhile Fragment.isConjunct, true, false⟩
      | [.limitOffset] => some ⟨h = .selectCount, rest.takeWhile Fragment.isConjunct, false, true⟩
      | [.orderBy, .limitOffset] =>
        some ⟨h = .selectCount, rest.takeWhile Fragment.isConjunct, true, true⟩
      | _ => none
    else none

/-- Whether a row satisfies one conjunct, given the value bound to its placeholder.  Only text
is ever bound here; text is compared in code point order. -/
def conjunctHolds (f : Fragment) (p : SqlValue) (r : Transaction) : Bool :=
  match f, p with
  | .andType, .text s => decide (r.type = s)
  | .andCategory, .text s => decide (r.category = s)
  | .andDateGe, .text s => decide (s ≤ r.date)
  | .andDateLe, .text s => decide (r.date ≤ s)
  | _, _ => false

/-- Whether a row satisfies the conjuncts, the parameters being taken in order; a placeholder
left without a parameter is `NULL` and matches nothing. -/
def conjunctsHold : List Fragment → List SqlValue → Transaction → Bool
  | [], _, _ => true
  | _ :: _, [], _ => false
  | f :: fs, p :: ps, r => conjunctHolds f p r && conjunctsHold fs ps r

/-- The order `ORDER BY date DESC, created_at DESC`: `a` may come before `b`. -/
def newestFirst (a b : Transaction) : Prop :=
  b.date < a.date ∨ (b.date = a.date ∧ b.created_at ≤ a.created_at)

instance : DecidableRel newestFirst := fun a b => by
  unfold newestFirst
  exact inferInstance

/-- The integer a `LIMIT` or `OFFSET` parameter must be. -/
def asInteger : SqlValue → Option Int
  | .num (.fin q) => if q.den = 1 then some q.num else none
  | _ => none

/-- `LIMIT l OFFSET o` on an ordered result: a negative offset is no offset, a negative limit
is no limit. -/
def applyLimit (l o : Int) (xs : List Transaction) : List Transaction :=
  if l < 0 then xs.drop o.toNat else (xs.drop o.toNat).take l.toNat

/-- The rows a `SELECT` of `getTransactions` ranges over and returns (for the counting query:
the rows it counts). -/
def selectRows (rows : List Transaction) (sql : List Fragment) (params : List SqlValue) :
    Except DbError (List Transaction) :=
  match parseSelect sql with
  | none => .error ⟨"SQLITE_ERROR: syntax error"⟩
  | some plan =>
    if 1 + plan.conjuncts.length + (if plan.limited then 2 else 0) < params.length then
      .error ⟨"SQLITE_RANGE: column index out of range"⟩
    else
      let found := rows.filter (fun r =>
        intEquals r.user_id (params.getD 0 .null) && conjunctsHold plan.conjuncts (params.drop 1) r)
      let sorted := if plan.ordered then found.insertionSort newestFirst else found
      if plan.limited then
        match asInteger (params.getD (1 + plan.conjuncts.length) .null),
              asInteger (params.getD (2 + plan.conjuncts.length) .null) with
        | some l, some o => .ok (applyLimit l o sorted)
        | _, _ => .error ⟨"SQLITE_MISMATCH: datatype mismatch"⟩
      else .ok sorted

/-- `database.all(query, params)` for the list query. -/
def databaseAll (rows : List Transaction) (sql : List Fragment) (params : List SqlValue) :
    Except DbError (List Transaction) :=
  selectRows rows sql params

/-- `database.get(countQuery, countParams)`: the `total` column of the single row returned. -/
def databaseGet (rows : List Transaction) (sql : List Fragment) (params : List SqlValue) :
    Except DbError Nat :=
  match selectRows rows sql params with
  | .ok found => .ok found.length
  | .error e => .error e

/-! ## `transactionController.js`: the handlers -/

/-- What a handler leaves behind: the response sent, the table, and the storage calls made. -/
structure Outcome where
  response : Response
  rows : List Transaction
  calls : List DbCall
  deriving DecidableEq

/-- The query string of `GET /transactions`; `none` is a parameter that was not sent. -/
structure ListQuery where
  page : Option String
  limit : Option String
  type : Option String
  category : Option String
  startDate : Option String
  endDate : Option String
  deriving DecidableEq

/-- A destructured `page` or `limit`: the numeric default of the destructuring pattern, or the
string that was sent. -/
inductive QVal
  | dflt (n : Nat)
  | str (s : String)
  deriving DecidableEq

/-- `const { x = d } = req.query`. -/
def withDefault (v : Option String) (d : Nat) : QVal :=
  match v with
  | none => .dflt d
  | some s => .str s

/-- The number an arithmetic operator reads from the value. -/
def QVal.toNumber : QVal → JsNum
  | .dflt n => .fin n
  | .str s => strToNumber s

/-- `parseInt(x)`; on the numeric defaults it is the default itself. -/
def QVal.parseInt : QVal → JsNum
  | .dflt n => .fin n
  | .str s => ExpenseApp.parseInt s

/-- The list query and its parameters, as lines 50 to 79 build them. -/
def listQuery (userId : Nat) (q : ListQuery) : List Fragment × List SqlValue :=
  let query := [Fragment.selectRows]
  let params := [SqlValue.num (.fin userId)]
  let (query, params) :=
    if truthy q.type then (query ++ [.andType], params ++ [bindField q.type])
    else (query, params)
  let (query, params) :=
    if truthy q.category then (query ++ [.andCategory], params ++ [bindField q.category])
    else (query, params)
  let (query, params) :=
    if truthy q.startDate then (query ++ [.andDateGe], params ++ [bindField q.startDate])
    else (query, params)
  let (query, params) :=
    if truthy q.endDate then (query ++ [.andDateLe], params ++ [bindField q.endDate])
    else (query, params)
  let query := query ++ [.orderBy]
  let offset := (((withDefault q.page 1).toNumber).sub (.fin 1)).mul (withDefault q.limit 10).toNumber
  let query := query ++ [.limitOffset]
  (query, params ++ [.num (withDefault q.limit 10).parseInt, .num offset])

/-- The counting query and its parameters, as lines 84 to 102 build them. -/
def countQuery (userId : Nat) (q : ListQuery) : List Fragment × List SqlValue :=
  let countQuery := [Fragment.selectCount]
  let countParams := [SqlValue.num (.fin userId)]
  let (countQuery, countParams) :=
    if truthy q.type then (countQuery ++ [.andType], countParams ++ [bindField q.type])
    else (countQuery, countParams)
  let (countQuery, countParams) :=
    if truthy q.category then
      (countQuery ++ [.andCategory], countParams ++ [bindField q.category])
    else (countQuery, countParams)
  let (countQuery, countParams) :=
    if truthy q.startDate then
      (countQuery ++ [.andDateGe], countParams ++ [bindField q.startDate])
    else (countQuery, countParams)
  let (countQuery, countParams) :=
    if truthy q.endDate then (countQuery ++ [.andDateLe], countParams ++ [bindField q.endDate])
    else (countQuery, countParams)
  (countQuery, countParams)

/-- `getTransactions(req, res)` for the caller `user` and the query string `q`. -/
def getTransactions (rows : List Transaction) (user : Claims) (q : ListQuery) : Outcome :=
  match databaseAll rows (listQuery user.id q).1 (listQuery user.id q).2 with
  | .error error =>
    ⟨⟨500, .failure "Server error getting transactions" error.message⟩, rows, [.all]⟩
  | .ok transactions =>
    match databaseGet rows (countQuery user.id q).1 (countQuery user.id q).2 with
    | .error error =>
      ⟨⟨500, .failure "Server error getting transactions" error.message⟩, rows, [.all, .get]⟩
    | .ok total =>
      ⟨⟨200, .listing transactions
          { page := (withDefault q.page 1).parseInt
            limit := (withDefault q.limit 10).parseInt
            total := total
            pages := (JsNum.div (.fin total) (withDefault q.limit 10).toNumber).ceil }⟩,
        rows, [.all, .get]⟩

/-- `updateTransaction(req, res)`: the caller `user`, the route parameter `id`, the body, and
the engine's clock reading `now`. -/
def updateTransaction (isISO8601 : String → Bool) (rows : List Transaction) (now : Nat)
    (user : Claims) (id : String) (body : Body) : Outcome :=
  if idValidation id ++ transactionValidation isISO8601 body ≠ [] then
    ⟨⟨400, .validation "Validation errors"
        (idValidation id ++ transactionValidation isISO8601 body)⟩, rows, []⟩
  else
    match runUpdate rows now (bindField (sanitized body).type) (bindField (sanitized body).amount)
        (bindField (sanitized body).description) (bindField (sanitized body).category)
        (bindField (sanitized body).payment_method) (bindField (sanitized body).date)
        (.text id) (.num (.fin user.id)) with
    | .error error =>
      ⟨⟨500, .failure "Server error updating transaction" error.message⟩, rows, [.run]⟩
    | .ok (result, rows') =>
      if result.changes = 0 then
        ⟨⟨404, .message "Transaction not found or you do not have permission to update it"⟩,
          rows', [.run]⟩
      else ⟨⟨200, .message "Transaction updated successfully"⟩, rows', [.run]⟩

/-- `deleteTransaction(req, res)`: the caller `user` and the route parameter `id`. -/
def deleteTransaction (rows : List Transaction) (user : Claims) (id : String) : Outcome :=
  if (runDelete rows (.text id) (.num (.fin user.id))).1.changes = 0 then
    ⟨⟨404, .message "Transaction not found or you do not have permission to delete it"⟩,
      (runDelete rows (.text id) (.num (.fin user.id))).2, [.run]⟩
  else
    ⟨⟨200, .message "Transaction deleted successfully"⟩,
      (runDelete rows (.text id) (.num (.fin user.id))).2, [.run]⟩

/-! ## Statistics -/

/-- The civil date (year, month, day) of a day counted from 1970-01-01. -/
def civilFromDays (day : Int) : Int × Int × Int :=
  let z := day + 719468
  let era := z / 146097
  let doe := z - era * 146097
  let yoe := (doe - doe / 1460 + doe / 36524 - doe / 146096) / 365
  let doy := doe - (365 * yoe + yoe / 4 - yoe / 100)
  let mp := (5 * doy + 2) / 153
  let d := doy - (153 * mp + 2) / 5 + 1
  let m := if mp < 10 then mp + 3 else mp - 9
  (yoe + era * 400 + (if m ≤ 2 then 1 else 0), m, d)

/-- A number written in decimal with at least `width` digits. -/
def zeroPad (width : Nat) (n : Nat) : String :=
  String.mk (List.replicate (width - (Nat.repr n).length) '0') ++ Nat.repr n

/-- The text `YYYY-MM-DD` that SQLite's `date()` gives for a day (years 0000 to 9999). -/
def isoDate (day : Int) : String :=
  zeroPad 4 (civilFromDays day).1.toNat ++ "-" ++ zeroPad 2 (civilFromDays day).2.1.toNat ++ "-" ++
    zeroPad 2 (civilFromDays day).2.2.toNat

/-- The `switch (period)` of `getTransactionStats`: the `N` of the filter
`date >= date('now', '-N days')` it selects. -/
def dateFilter (period : String) : Nat :=
  if period = "week" then 7
  else if period = "month" then 30
  else if period = "year" then 365
  else 30

/-- The rows `WHERE user_id = ? AND date >= date('now', '-N days')` keeps, `today` being the
engine's current day. -/
def windowRows (rows : List Transaction) (today : Int) (days : Nat) (userId : SqlValue) :
    List Transaction :=
  rows.filter (fun r => intEquals r.user_id userId && decide (isoDate (today - days) ≤ r.date))

/-- The row of the first query of `getTransactionStats`. -/
structure WindowStats where
  total_revenue : ℚ
  total_expense : ℚ
  revenue_count : Nat
  expense_count : Nat
  deriving DecidableEq

/-- The first query: `COALESCE(SUM(CASE WHEN type = 'revenue' THEN amount ELSE 0 END), 0)`, the
same for `'expense'`, and `COUNT(CASE WHEN type = ... THEN 1 END)` for both, over the window. -/
def statsQuery (rows : List Transaction) (today : Int) (days : Nat) (userId : SqlValue) :
    WindowStats :=
  { total_revenue :=
      ((windowRows rows today days userId).map
        (fun r => if r.type = "revenue" then r.amount else 0)).sum
    total_expense :=
      ((windowRows rows today days userId).map
        (fun r => if r.type = "expense" then r.amount else 0)).sum
    revenue_count :=
      ((windowRows rows today days userId).filterMap
        (fun r => if r.type = "revenue" then some 1 else none)).length
    expense_count :=
      ((windowRows rows today days userId).filterMap
        (fun r => if r.type = "expense" then some 1 else none)).length }

/-- The second query: `SUM(amount)` and `COUNT(*)` per `(category, type)` over the window,
`ORDER BY total DESC` (groups of equal total stay in the order they are first met). -/
def categoryQuery (rows : List Transaction) (today : Int) (days : Nat) (userId : SqlValue) :
    List CategoryStat :=
  ((((windowRows rows today days userId).map (fun r => (r.category, r.type))).eraseDups).map
    (fun k =>
      { category := k.1
        type := k.2
        total := (((windowRows rows today days userId).filter
          (fun r => decide (r.category = k.1 ∧ r.type = k.2))).map (fun r => r.amount)).sum
        count := ((windowRows rows today days userId).filter
          (fun r => decide (r.category = k.1 ∧ r.type = k.2))).length })).insertionSort
    (fun a b => b.total ≤ a.total)

/-- The third query:
`COALESCE(SUM(CASE WHEN type = 'revenue' THEN amount ELSE -amount END), 0) ... WHERE user_id = ?`. -/
def balanceQuery (rows : List Transaction) (userId : SqlValue) : ℚ :=
  ((rows.filter (fun r => intEquals r.user_id userId)).map
    (fun r => if r.type = "revenue" then r.amount else -r.amount)).sum

/-- `getTransactionStats(req, res)`: the caller `user`, `req.query.period`, and the engine's
current day. -/
def getTransactionStats (rows : List Transaction) (today : Int) (user : Claims)
    (period : Option String) : Outcome :=
  ⟨⟨200, .statistics (period.getD "month")
      { total_revenue :=
          (statsQuery rows today (dateFilter (period.getD "month")) (.num (.fin user.id))).total_revenue
        total_expense :=
          (statsQuery rows today (dateFilter (period.getD "month")) (.num (.fin user.id))).total_expense
        revenue_count :=
          (statsQuery rows today (dateFilter (period.getD "month")) (.num (.fin user.id))).revenue_count
        expense_count :=
          (statsQuery rows today (dateFilter (period.getD "month")) (.num (.fin user.id))).expense_count
        balance := balanceQuery rows (.num (.fin user.id))
        net_income :=
          (statsQuery rows today (dateFilter (period.getD "month")) (.num (.fin user.id))).total_revenue -
          (statsQuery rows today (dateFilter (period.getD "month")) (.num (.fin user.id))).total_expense }
      (categoryQuery rows today (dateFilter (period.getD "month")) (.num (.fin user.id)))⟩,
    rows, [.get, .all, .get]⟩


/-! ## `createTransaction` -/

/-- What `database.run` resolves to for an `INSERT`: `this.lastID` and `this.changes`. -/
structure InsertResult where
  id : Nat
  changes : Nat
  deriving DecidableEq

/-- The id an `INTEGER PRIMARY KEY AUTOINCREMENT` column gives the next row: one more than the
largest id in the table (ids of deleted rows are not remembered here). -/
def nextId (ids : List Nat) : Nat := ids.foldr max 0 + 1

/-- The statement of `createTransaction`:
`INSERT INTO transactions (user_id, type, amount, description, category, payment_method, date)
VALUES (?, ?, ?, ?, ?, ?, ?)`.  The six values of the body meet the constraints of the table as
in an `UPDATE`; `created_at` and `updated_at` take `CURRENT_TIMESTAMP`. -/
def runInsert (rows : List Transaction) (now : Nat) (userId : Nat)
    (type amount description category payment_method date : SqlValue) :
    Except DbError (InsertResult × List Transaction) :=
  match updatedRow now type amount description category payment_method date
      ⟨nextId (rows.map (fun r => r.id)), userId, "", 0, "", "", none, "", now, now⟩ with
  | .error e => .error e
  | .ok r => .ok (⟨r.id, 1⟩, rows ++ [r])

/-- `createTransaction(req, res)`: the caller `user`, the body, and the engine's clock reading
`now`. -/
def createTransaction (isISO8601 : String → Bool) (rows : List Transaction) (now : Nat)
    (user : Claims) (body : Body) : Outcome :=
  if transactionValidation isISO8601 body ≠ [] then
    ⟨⟨400, .validation "Validation errors" (transactionValidation isISO8601 body)⟩, rows, []⟩
  else
    match runInsert rows now user.id (bindField (sanitized body).type)
        (bindField (sanitized body).amount) (bindField (sanitized body).description)
        (bindField (sanitized body).category) (bindField (sanitized body).payment_method)
        (bindField (sanitized body).date) with
    | .error error =>
      ⟨⟨500, .failure "Server error creating transaction" error.message⟩, rows, [.run]⟩
    | .ok (result, rows') =>
      ⟨⟨201, .created "Transaction created successfully"
          ⟨result.id, (sanitized body).type, (sanitized body).amount,
            (sanitized body).description, (sanitized body).category,
            (sanitized body).payment_method, (sanitized body).date⟩⟩, rows', [.run]⟩

/-! ## `app.js`: the error middleware -/

/-- A JavaScript `Error`, as far as its `message` goes. -/
structure JsError where
  message : String
  deriving DecidableEq

/-- The variables of `process.env` the backend reads. -/
structure ProcessEnv where
  JWT_SECRET : Option String
  JWT_EXPIRES_IN : Option String
  NODE_ENV : Option String
  deriving DecidableEq

/-- The error middleware `app.use((err, req, res, next) => ...)`. -/
def errorMiddleware (env : ProcessEnv) (err : JsError) : Response :=
  ⟨500, .failure "Something went wrong!"
    (if env.NODE_ENV = some "development" then err.message else "Internal Server Error")⟩

/-! ## The token service: `generateToken` and `verifyToken` of `middleware/auth.js` -/

/-- The milliseconds in a unit of the `ms` package, the unit being in lower case. -/
def msUnit (u : String) : Option ℚ :=
  if ["years", "year", "yrs", "yr", "y"].contains u then some 31557600000
  else if ["weeks", "week", "w"].contains u then some 604800000
  else if ["days", "day", "d"].contains u then some 86400000
  else if ["hours", "hour", "hrs", "hr", "h"].contains u then some 3600000
  else if ["minutes", "minute", "mins", "min", "m"].contains u then some 60000
  else if ["seconds", "second", "secs", "sec", "s"].contains u then some 1000
  else if ["milliseconds", "millisecond", "msecs", "msec", "ms", ""].contains u then some 1
  else none

/-- The number at the head of a time span, `-?(\d+)?\.?\d+`, and the unread rest. -/
def readMsNumber (cs : List Char) : Option (ℚ × List Char) :=
  let body := match cs with
    | '-' :: r => r
    | r => r
  let ip := readDigits 10 body
  let fp : List Nat × List Char :=
    match ip.2 with
    | '.' :: t => readDigits 10 t
    | r => ([], r)
  let value : ℚ :=
    (digitsValue 10 (ip.1 ++ fp.1) : ℚ) / (10 : ℚ) ^ fp.1.length
  if fp.1 = [] then
    (if ip.1 = [] then none
     else some (match cs with
       | '-' :: _ => -(digitsValue 10 ip.1 : ℚ)
       | _ => (digitsValue 10 ip.1 : ℚ), ip.2))
  else
    some (match cs with
      | '-' :: _ => -value
      | _ => value, fp.2)

/-- `ms(str)` of the `ms` package on a string: the time span in milliseconds, `none` for
`undefined`. -/
def ms (str : String) : Option ℚ :=
  if 100 < str.length then none
  else
    match readMsNumber str.toList with
    | none => none
    | some (n, rest) =>
      (msUnit (String.mk ((rest.dropWhile (fun c => c = ' ')).map Char.toLower))).map
        (fun unit => n * unit)

/-- Modelled from the spec: `jwt.sign(payload, secret, { expiresIn })` of the jsonwebtoken
package, which is not part of the sources.  The token embeds the claims plus issued-at (the
clock reading `now`, in seconds) and expires-at (issued-at plus the time span, rounded down);
`encode` stands for the signing and serialising of the claims under the secret. -/
def jwtSign (encode : String → Claims → String) (payload : UserSummary)
    (secret expiresIn : String) (now : Nat) : Except JsError String :=
  match ms expiresIn with
  | none =>
    .error ⟨"\"expiresIn\" should be a number of seconds or string representing a timespan"⟩
  | some span =>
    .ok (encode secret
      ⟨payload.id, payload.email, payload.name, payload.firstname, now,
        (⌊(now : ℚ) + span / 1000⌋).toNat⟩)

/-- Modelled from the spec: `jwt.verify(token, secret)` of the jsonwebtoken package, which is
not part of the sources.  It fails with the invalid kind when the signature does not verify or
the payload is malformed (`decode` gives nothing), with the expired kind when the current time
is at or past expires-at, and returns the claims otherwise. -/
def jwtVerify (decode : String → String → Option Claims) (token secret : String) (now : Nat) :
    Except JwtError Claims :=
  match decode secret token with
  | none => .error ⟨"JsonWebTokenError", "invalid token"⟩
  | some payload =>
    if payload.exp ≤ now then .error ⟨"TokenExpiredError", "jwt expired"⟩ else .ok payload

/-- The functions of the packages the auth handlers call: validator.js `isEmail` and
`normalizeEmail`, bcryptjs `hash` (password, rounds and the salt it draws) and `compare`, and
the signing and reading of a token. -/
structure Libraries where
  isEmail : String → Bool
  normalizeEmail : String → String
  bcryptHash : String → Nat → String → String
  bcryptCompare : String → String → Bool
  jwtEncode : String → Claims → String
  jwtDecode : String → String → Option Claims

/-- `const JWT_SECRET = process.env.JWT_SECRET || 'your-secret-key-change-this-in-production'`. -/
def JWT_SECRET (env : ProcessEnv) : String :=
  if truthy env.JWT_SECRET then fieldText env.JWT_SECRET
  else "your-secret-key-change-this-in-production"

/-- `generateToken(payload)` at the clock reading `now`. -/
def generateToken (lib : Libraries) (env : ProcessEnv) (now : Nat) (payload : UserSummary) :
    Except JsError String :=
  jwtSign lib.jwtEncode payload (JWT_SECRET env)
    (if truthy env.JWT_EXPIRES_IN then fieldText env.JWT_EXPIRES_IN else "24h") now

/-- `verifyToken(token)` at the clock reading `now`; `authenticateToken` makes the same call. -/
def verifyToken (lib : Libraries) (env : ProcessEnv) (now : Nat) (token : String) :
    Except JwtError Claims :=
  jwtVerify lib.jwtDecode token (JWT_SECRET env) now

/-! ## `routes/auth.js`: validation -/

/-- The body of a register or login request; login reads `email` and `password` only. -/
structure AuthBody where
  name : Option String
  firstname : Option String
  email : Option String
  password : Option String
  deriving DecidableEq

/-- A line terminator: the characters `.` does not match in a regular expression without the
`s` flag. -/
def isLineTerminator (c : Char) : Bool :=
  [0x0A, 0x0D, 0x2028, 0x2029].contains c.toNat

/-- The test `/^(?=.*[a-z])(?=.*[A-Z])(?=.*\d)/` of `matches`: each look-ahead starts at the
head of the string, and its `.*` runs up to the first line terminator. -/
def matchesPasswordPattern (str : String) : Bool :=
  (str.toList.takeWhile (fun c => !isLineTerminator c)).any Char.isLower &&
  (str.toList.takeWhile (fun c => !isLineTerminator c)).any Char.isUpper &&
  (str.toList.takeWhile (fun c => !isLineTerminator c)).any Char.isDigit

/-- The chain `body('password')` of `registerValidation`: both validators run, each adds its
own error. -/
def passwordValidation (password : String) : List FieldError :=
  (if isLength 6 password then []
   else [⟨"body", "password", "Password must be at least 6 characters long", password⟩]) ++
  (if matchesPasswordPattern password then []
   else [⟨"body", "password",
          "Password must contain at least one lowercase letter, one uppercase letter, and one number",
          password⟩])

/-- The validation chains `registerValidation`, run on a body. -/
def registerValidation (lib : Libraries) (body : AuthBody) : List FieldError :=
  (if isLength 2 (trim (fieldText body.name)) then []
   else [⟨"body", "name", "Name must be at least 2 characters long",
          trim (fieldText body.name)⟩]) ++
  (if isLength 2 (trim (fieldText body.firstname)) then []
   else [⟨"body", "firstname", "First name must be at least 2 characters long",
          trim (fieldText body.firstname)⟩]) ++
  (if lib.isEmail (fieldText body.email) then []
   else [⟨"body", "email", "Please provide a valid email", fieldText body.email⟩]) ++
  passwordValidation (fieldText body.password)

/-- The validation chains `loginValidation`, run on a body. -/
def loginValidation (lib : Libraries) (body : AuthBody) : List FieldError :=
  (if lib.isEmail (fieldText body.email) then []
   else [⟨"body", "email", "Please provide a valid email", fieldText body.email⟩]) ++
  (if fieldText body.password ≠ "" then []
   else [⟨"body", "password", "Password is required", fieldText body.password⟩])

/-- The register body after the sanitizers `.trim()` and `.normalizeEmail()` have run. -/
def sanitizedRegister (lib : Libraries) (body : AuthBody) : AuthBody :=
  { body with
    name := some (trim (fieldText body.name))
    firstname := some (trim (fieldText body.firstname))
    email := some (lib.normalizeEmail (fieldText body.email)) }

/-- The login body after the sanitizer `.normalizeEmail()` has run. -/
def sanitizedLogin (lib : Libraries) (body : AuthBody) : AuthBody :=
  { body with email := some (lib.normalizeEmail (fieldText body.email)) }

/-! ## `authController.js` -/

/-- A row of the `users` table. -/
structure User where
  id : Nat
  name : String
  firstname : String
  email : String
  password : String
  created_at : Nat
  updated_at : Nat
  deriving DecidableEq

/-- What an auth handler leaves behind: the response sent, the `users` table, and the storage
calls made. -/
structure AuthOutcome where
  response : Response
  users : List User
  calls : List DbCall
  deriving DecidableEq

/-- The queries `SELECT id FROM users WHERE email = ?` and `SELECT * FROM users WHERE email = ?`
through `database.get`: the first row found, if any. -/
def getUserByEmail (users : List User) (email : SqlValue) : Option User :=
  match email with
  | .text e => users.find? (fun u => decide (u.email = e))
  | _ => none

/-- The statement of `register`:
`INSERT INTO users (name, firstname, email, password) VALUES (?, ?, ?, ?)`. -/
def insertUser (users : List User) (now : Nat) (name firstname email password : SqlValue) :
    Except DbError (InsertResult × List User) :=
  match name, firstname, email, password with
  | .null, _, _, _ => .error ⟨"SQLITE_CONSTRAINT: NOT NULL constraint failed: users.name"⟩
  | _, .null, _, _ => .error ⟨"SQLITE_CONSTRAINT: NOT NULL constraint failed: users.firstname"⟩
  | _, _, .null, _ => .error ⟨"SQLITE_CONSTRAINT: NOT NULL constraint failed: users.email"⟩
  | _, _, _, .null => .error ⟨"SQLITE_CONSTRAINT: NOT NULL constraint failed: users.password"⟩
  | .text n, .text f, .text e, .text p =>
    if users.any (fun u => decide (u.email = e)) then
      .error ⟨"SQLITE_CONSTRAINT: UNIQUE constraint failed: users.email"⟩
    else
      .ok (⟨nextId (users.map (fun u => u.id)), 1⟩,
        users ++ [⟨nextId (users.map (fun u => u.id)), n, f, e, p, now, now⟩])
  | _, _, _, _ => .error ⟨"value of a kind the controllers never bind"⟩

/-- `register(req, res)`: the body, the engine's and the process's clock reading `now`, and the
salt `bcrypt.hash` draws. -/
def register (lib : Libraries) (env : ProcessEnv) (users : List User) (now : Nat)
    (salt : String) (body : AuthBody) : AuthOutcome :=
  if registerValidation lib body ≠ [] then
    ⟨⟨400, .validation "Validation errors" (registerValidation lib body)⟩, users, []⟩
  else
    match getUserByEmail users (bindField (sanitizedRegister lib body).email) with
    | some _ => ⟨⟨400, .message "User already exists with this email"⟩, users, [.get]⟩
    | none =>
      match insertUser users now (bindField (sanitizedRegister lib body).name)
          (bindField (sanitizedRegister lib body).firstname)
          (bindField (sanitizedRegister lib body).email)
          (.text (lib.bcryptHash (fieldText (sanitizedRegister lib body).password) 12 salt)) with
      | .error error =>
        ⟨⟨500, .failure "Server error during registration" error.message⟩, users,
          [.get, .run]⟩
      | .ok (result, users') =>
        match generateToken lib env now
            ⟨result.id, fieldText (sanitizedRegister lib body).name,
              fieldText (sanitizedRegister lib body).firstname,
              fieldText (sanitizedRegister lib body).email⟩ with
        | .error error =>
          ⟨⟨500, .failure "Server error during registration" error.message⟩, users',
            [.get, .run]⟩
        | .ok token =>
          ⟨⟨201, .session "User created successfully" token
              ⟨result.id, fieldText (sanitizedRegister lib body).name,
                fieldText (sanitizedRegister lib body).firstname,
                fieldText (sanitizedRegister lib body).email⟩⟩, users', [.get, .run]⟩

/-- `login(req, res)`: the body and the process's clock reading `now`. -/
def login (lib : Libraries) (env : ProcessEnv) (users : List User) (now : Nat)
    (body : AuthBody) : AuthOutcome :=
  if loginValidation lib body ≠ [] then
    ⟨⟨400, .validation "Validation errors" (loginValidation lib body)⟩, users, []⟩
  else
    match getUserByEmail users (bindField (sanitizedLogin lib body).email) with
    | none => ⟨⟨401, .message "Invalid email or password"⟩, users, [.get]⟩
    | some user =>
      if lib.bcryptCompare (fieldText (sanitizedLogin lib body).password) user.password then
        match generateToken lib env now ⟨user.id, user.name, user.firstname, user.email⟩ with
        | .error error =>
          ⟨⟨500, .failure "Server error during login" error.message⟩, users, [.get]⟩
        | .ok token =>
          ⟨⟨200, .session "Login successful" token
              ⟨user.id, user.name, user.firstname, user.email⟩⟩, users, [.get]⟩
      else ⟨⟨401, .message "Invalid email or password"⟩, users, [.get]⟩

/-! ## The Credential Store -/

/-- Modelled from the spec: the contract of the Credential Store for one stored hash, which the
bcryptjs package (not part of the sources) implements.  For the hash made from `password` with
the given cost and salt, `verify(candidate, hash)` is true exactly when the candidate is the
password, and the hash is not the password itself. -/
def credentialContract (lib : Libraries) (password : String) (cost : Nat) (salt : String) :
    Prop :=
  (∀ candidate : String,
    lib.bcryptCompare candidate (lib.bcryptHash password cost salt) =
      decide (candidate = password)) ∧
  lib.bcryptHash password cost salt ≠ password

/-! ## The list filter in the words of the specification -/

/-- A filter is supplied when the query string gives it a non-empty value. -/
def supplied (v : Option String) : Prop := v ≠ none ∧ v ≠ some ""

instance : DecidablePred supplied := fun v => by
  unfold supplied
  exact inferInstance

/-- The conjuncts of the supplied filters, in the order type, category, startDate, endDate. -/
def suppliedConjuncts (q : ListQuery) : List Fragment :=
  (if truthy q.type then [Fragment.andType] else []) ++
  (if truthy q.category then [Fragment.andCategory] else []) ++
  (if truthy q.startDate then [Fragment.andDateGe] else []) ++
  (if truthy q.endDate then [Fragment.andDateLe] else [])

/-- The values of the supplied filters, in the same order. -/
def suppliedValues (q : ListQuery) : List SqlValue :=
  (if truthy q.type then [bindField q.type] else []) ++
  (if truthy q.category then [bindField q.category] else []) ++
  (if truthy q.startDate then [bindField q.startDate] else []) ++
  (if truthy q.endDate then [bindField q.endDate] else [])

/-- A filter holds of a row when it is not supplied or its test passes. -/
def filterHolds (v : Option String) (test : String → Bool) : Bool :=
  match v with
  | none => true
  | some s => if s = "" then true else test s

/-- The filter predicate of `list`: the row is the caller's, and type, category, `date ≥ start`
and `date ≤ end` hold as far as they are supplied. -/
def matchesFilters (userId : Nat) (q : ListQuery) (r : Transaction) : Bool :=
  decide (r.user_id = userId) &&
  filterHolds q.type (fun s => decide (r.type = s)) &&
  filterHolds q.category (fun s => decide (r.category = s)) &&
  filterHolds q.startDate (fun s => decide (s ≤ r.date)) &&
  filterHolds q.endDate (fun s => decide (r.date ≤ s))

/-! ## The statistics window in the words of the specification -/

/-- The trailing window of `days` days measured from today: the dates from `days` days ago up
to today. -/
def inTrailingWindow (today : Int) (days : Nat) (date : String) : Bool :=
  (List.range (days + 1)).any (fun k => decide (date = isoDate (today - (k : Int))))

/-- The sum of the amounts of the rows of one user and one type dated inside the trailing
window. -/
def trailingTotal (rows : List Transaction) (today : Int) (days : Nat) (userId : Nat)
    (type : String) : ℚ :=
  ((rows.filter (fun r => decide (r.user_id = userId) && decide (r.type = type) &&
    inTrailingWindow today days r.date)).map (fun r => r.amount)).sum

/-! ## Sample data -/

/-- A caller. -/
def sampleUser : Claims := ⟨1, "ann@example.org", "Doe", "Ann", 1710000000, 1710086400⟩

/-- A stand-in for `jwt.verify`: one token verifies, one has expired, any other is invalid. -/
def sampleVerify (token : String) : Except JwtError Claims :=
  if token = "good" then .ok sampleUser
  else if token = "old" then .error ⟨"TokenExpiredError", "jwt expired"⟩
  else .error ⟨"JsonWebTokenError", "invalid signature"⟩

/-- A body that passes validation. -/
def sampleBody : Body :=
  ⟨some "expense", some "12.50", some "  lunch ", some "food", none, some "2024-03-15"⟩

/-- A body whose amount is half a cent. -/
def halfCentBody : Body :=
  ⟨some "expense", some "0.005", some "tea", some "food", none, some "2024-03-15"⟩

/-- A second user. -/
def otherUser : Claims := ⟨2, "bob@example.org", "Roe", "Bob", 1710000000, 1710086400⟩

/-- A row owned by the second user. -/
def otherRow : Transaction :=
  ⟨5, 2, "revenue", 1000, "salary", "work", none, "2024-03-10", 1710000000, 1710000000⟩

/-- The `i`-th of a run of rows of user 1, entered one second apart on the same day. -/
def sampleRow (i : Nat) : Transaction :=
  ⟨i + 1, 1, "expense", 5, "coffee", "food", none, "2024-03-15", 1710000000 + i,
    1710000000 + i⟩

/-- The first `n` sample rows, in the order they were entered. -/
def sampleRows (n : Nat) : List Transaction := (List.range n).map sampleRow

/-- A query string without any parameter. -/
def noQuery : ListQuery := ⟨none, none, none, none, none, none⟩

/-- The day of the fixture: 2024-03-15, counted from 1970-01-01. -/
def fixtureToday : Int := 19797

/-- The fixture of the specification: revenue 1000 five days ago, expense 300 ten days ago,
expense 50 forty days ago, all of user 1. -/
def fixtureRows : List Transaction :=
  [⟨1, 1, "revenue", 1000, "salary", "work", none, isoDate (fixtureToday - 5), 1709000000,
      1709000000⟩,
    ⟨2, 1, "expense", 300, "rent", "home", none, isoDate (fixtureToday - 10), 1709000001,
      1709000001⟩,
    ⟨3, 1, "expense", 50, "books", "leisure", none, isoDate (fixtureToday - 40), 1709000002,
      1709000002⟩]

/-- A revenue of user 1 dated tomorrow. -/
def tomorrowRow : Transaction :=
  ⟨4, 1, "revenue", 100, "refund", "misc", none, isoDate (fixtureToday + 1), 1709000003,
    1709000003⟩

/-- Stand-ins for the packages: an email has an `@` and is normalised to lower case, a hash is
`$2a$12$`, the salt and the password in clear, a token spells out its claims and its secret. -/
def sampleLib : Libraries where
  isEmail := fun s => s.toList.contains '@'
  normalizeEmail := fun s => String.mk (s.toList.map Char.toLower)
  bcryptHash := fun password rounds salt => "$2a$" ++ toString rounds ++ "$" ++ salt ++ password
  bcryptCompare := fun password hash => decide (String.mk (hash.toList.drop 15) = password)
  jwtEncode := fun secret c =>
    String.intercalate "." [toString c.id, c.email, toString c.iat, toString c.exp, secret]
  jwtDecode := fun secret token =>
    [(⟨1, "ann@example.org", "Doe", "Ann", 1710000000, 1710086400⟩ : Claims)].find?
      (fun c => decide (String.intercalate "."
        [toString c.id, c.email, toString c.iat, toString c.exp, secret] = token))

/-- A production environment without a configured secret or time span. -/
def sampleEnv : ProcessEnv := ⟨none, none, some "production"⟩

/-- The `users` table with Ann, whose password is `Secret1x` under the stand-in hash. -/
def sampleUsers : List User :=
  [⟨1, "Doe", "Ann", "ann@example.org", "$2a$12$saltsaltSecret1x", 1709000000, 1709000000⟩]

/-- A valid body without a category. -/
def noCategoryBody : Body := { sampleBody with category := none }

/-! # Properties

## Reading decimal numerals -/

theorem digitChar_isDigit (k : Nat) (hk : k < 10) :
    (Nat.digitChar k).isDigit = true ∧ (Nat.digitChar k).toNat - 48 = k := by
  interval_cases k <;> decide

theorem radixDigit_ten_of_isDigit (c : Char) (h : c.isDigit = true) :
    radixDigit 10 c = some (c.toNat - 48) := by
  have h2 : c.toNat - 48 < 10 := by
    simp only [Char.isDigit, Bool.and_eq_true, decide_eq_true_eq] at h
    have h3 : c.val ≤ 57 := h.2
    have : c.toNat ≤ 57 := h3
    omega
  simp [radixDigit, digitOf, h, Option.filter, h2]

theorem readDigits_ten_of_all (cs : List Char) (h : ∀ c ∈ cs, c.isDigit = true) :
    readDigits 10 cs = (cs.map (fun c => c.toNat - 48), []) := by
  induction cs with
  | nil => rfl
  | cons c cs ih =>
    have hc := radixDigit_ten_of_isDigit c (h c (List.mem_cons_self _ _))
    have ih2 := ih (fun x hx => h x (List.mem_cons_of_mem _ hx))
    simp [readDigits, hc, ih2]

theorem not_ws_of_isDigit (c : Char) (h : c.isDigit = true) : isStrWhiteSpace c = false := by
  simp only [Char.isDigit, Bool.and_eq_true, decide_eq_true_eq] at h
  have h1 : 48 ≤ c.toNat := h.1
  have h2 : c.toNat ≤ 57 := h.2
  unfold isStrWhiteSpace
  generalize c.toNat = n at h1 h2 ⊢
  interval_cases n <;> rfl

theorem trimStart_of_digit (c : Char) (cs : List Char) (h : c.isDigit = true) :
    trimStart (c :: cs) = c :: cs := by
  simp [trimStart, List.dropWhile, not_ws_of_isDigit c h]

theorem trimBoth_of_digits (cs : List Char) (h : ∀ c ∈ cs, c.isDigit = true) :
    trimBoth cs = cs := by
  rcases List.eq_nil_or_concat cs with rfl | ⟨l, b, rfl⟩
  · rfl
  · have hb : b.isDigit = true := h b (by simp)
    have h1 : trimStart (l ++ [b]) = l ++ [b] := by
      cases l with
      | nil => exact trimStart_of_digit b [] hb
      | cons a l => exact trimStart_of_digit a _ (h a (by simp))
    simp [trimBoth, h1, List.dropWhile, not_ws_of_isDigit b hb]

theorem readSign_of_digit (c : Char) (cs : List Char) (h : c.isDigit = true) :
    readSign (c :: cs) = (false, c :: cs) := by
  have h1 : c ≠ '+' := by rintro rfl; revert h; decide
  have h2 : c ≠ '-' := by rintro rfl; revert h; decide
  unfold readSign
  split
  · rename_i heq; cases heq; exact absurd rfl h1
  · rename_i heq; cases heq; exact absurd rfl h2
  · rfl

theorem signedDecimal_of_digits (c : Char) (cs : List Char)
    (h : ∀ x ∈ c :: cs, x.isDigit = true) :
    signedDecimal (c :: cs) =
      JsNum.fin (digitsValue 10 ((c :: cs).map (fun x => x.toNat - 48)) : ℚ) := by
  have hc : c.isDigit = true := h c (List.mem_cons_self _ _)
  have hI : c ≠ 'I' := by rintro rfl; revert hc; decide
  have hpre : "Infinity".toList.isPrefixOf (c :: cs) = false := by
    show List.isPrefixOf ('I' :: _) (c :: cs) = false
    simp [List.isPrefixOf, Ne.symm hI]
  have hd : readDecimal (c :: cs) =
      some (⟨digitsValue 10 ((c :: cs).map (fun x => x.toNat - 48)), 0⟩, []) := by
    simp [readDecimal, readDigits_ten_of_all (c :: cs) h, readExponent]
  unfold signedDecimal readStrDecimal
  rw [readSign_of_digit c cs hc]
  simp only [hpre, hd]
  simp [DecLit.toRat]

theorem strToNumber_of_digits (c : Char) (cs : List Char)
    (h : ∀ x ∈ c :: cs, x.isDigit = true) :
    strToNumber (String.mk (c :: cs)) =
      JsNum.fin (digitsValue 10 ((c :: cs).map (fun x => x.toNat - 48)) : ℚ) := by
  have ht : trimBoth (c :: cs) = c :: cs := trimBoth_of_digits _ h
  unfold strToNumber
  simp only [String.toList, ht]
  split
  · rename_i heq; cases heq
  · rename_i x rest heq
    cases heq
    have hx : x.isDigit = true := h x (by simp)
    have e1 : ¬ (x = 'x' ∨ x = 'X') := by rintro (rfl | rfl) <;> revert hx <;> decide
    have e2 : ¬ (x = 'o' ∨ x = 'O') := by rintro (rfl | rfl) <;> revert hx <;> decide
    have e3 : ¬ (x = 'b' ∨ x = 'B') := by rintro (rfl | rfl) <;> revert hx <;> decide
    rw [if_neg e1, if_neg e2, if_neg e3]
    exact signedDecimal_of_digits _ _ h
  · exact signedDecimal_of_digits _ _ h

theorem parseInt_of_digits (c : Char) (cs : List Char)
    (h : ∀ x ∈ c :: cs, x.isDigit = true) :
    parseInt (String.mk (c :: cs)) =
      JsNum.fin (digitsValue 10 ((c :: cs).map (fun x => x.toNat - 48)) : ℚ) := by
  have hc : c.isDigit = true := h c (List.mem_cons_self _ _)
  have hr : readIntDigits (c :: cs) = ((c :: cs).map (fun x => x.toNat - 48), 10) := by
    unfold readIntDigits
    split
    · rename_i x rest heq
      cases heq
      have hx : x.isDigit = true := h x (by simp)
      have e1 : ¬ (x = 'x' ∨ x = 'X') := by rintro (rfl | rfl) <;> revert hx <;> decide
      rw [if_neg e1, readDigits_ten_of_all _ h]
    · rw [readDigits_ten_of_all _ h]
  unfold parseInt
  simp only [String.toList, trimStart_of_digit c cs hc, readSign_of_digit c cs hc, hr]
  simp

theorem digitsValue_append (ds : List Nat) (d : Nat) :
    digitsValue 10 (ds ++ [d]) = 10 * digitsValue 10 ds + d := by
  simp [digitsValue, List.foldl_append]

theorem toDigitsCore_spec (fuel : Nat) : ∀ (n : Nat) (acc : List Char), n < fuel →
    ∃ pre : List Char, Nat.toDigitsCore 10 fuel n acc = pre ++ acc ∧ pre ≠ [] ∧
      (∀ c ∈ pre, c.isDigit = true) ∧
      digitsValue 10 (pre.map (fun c => c.toNat - 48)) = n := by
  induction fuel with
  | zero => intro n acc h; omega
  | succ fuel ih =>
    intro n acc h
    have hd := digitChar_isDigit (n % 10) (Nat.mod_lt _ (by norm_num))
    unfold Nat.toDigitsCore
    by_cases h0 : n / 10 = 0
    · refine ⟨[Nat.digitChar (n % 10)], ?_, by simp, ?_, ?_⟩
      · simp [h0]
      · intro c hc
        rw [List.mem_singleton] at hc
        rw [hc]; exact hd.1
      · simp [digitsValue, hd.2]
        omega
    · obtain ⟨pre, h1, _, h3, h4⟩ := ih (n / 10) (Nat.digitChar (n % 10) :: acc) (by omega)
      refine ⟨pre ++ [Nat.digitChar (n % 10)], ?_, by simp, ?_, ?_⟩
      · simp [h0, h1]
      · intro c hc
        rcases List.mem_append.mp hc with hc | hc
        · exact h3 c hc
        · rw [List.mem_singleton] at hc
          rw [hc]; exact hd.1
      · rw [List.map_append, List.map_singleton, digitsValue_append, h4, hd.2]
        omega

theorem toString_digits (n : Nat) :
    ∃ c cs, toString n = String.mk (c :: cs) ∧ (∀ x ∈ c :: cs, x.isDigit = true) ∧
      digitsValue 10 ((c :: cs).map (fun x => x.toNat - 48)) = n := by
  obtain ⟨pre, h1, h2, h3, h4⟩ := toDigitsCore_spec (n + 1) n [] (by omega)
  cases pre with
  | nil => exact absurd rfl h2
  | cons c cs =>
    refine ⟨c, cs, ?_, h3, h4⟩
    show Nat.repr n = _
    simp [Nat.repr, Nat.toDigits, h1, List.asString]

theorem strToNumber_toString (n : Nat) : strToNumber (toString n) = JsNum.fin (n : ℚ) := by
  obtain ⟨c, cs, h1, h2, h3⟩ := toString_digits n
  rw [h1, strToNumber_of_digits c cs h2, h3]

theorem parseInt_toString (n : Nat) : parseInt (toString n) = JsNum.fin (n : ℚ) := by
  obtain ⟨c, cs, h1, h2, h3⟩ := toString_digits n
  rw [h1, parseInt_of_digits c cs h2, h3]

/-! ## The access guard -/

theorem splitSpaces_of_no_space (t : List Char) (h : ' ' ∉ t) : splitSpaces t = [t] := by
  induction t with
  | nil => rfl
  | cons c cs ih =>
    have hc : c ≠ ' ' := fun e => h (e ▸ List.mem_cons_self _ _)
    have hcs : ' ' ∉ cs := fun e => h (List.mem_cons_of_mem _ e)
    simp [splitSpaces, hc, ih hcs]

theorem headerToken_bearer (t : List Char) (h : ' ' ∉ t) :
    headerToken (some (String.mk ("Bearer ".toList ++ t))) = some (String.mk t) := by
  have h1 : String.mk ("Bearer ".toList ++ t) ≠ "" := by
    intro e
    have := congrArg String.length e
    simp at this
  have h2 : splitSpaces ("Bearer ".toList ++ t) = ["Bearer".toList, t] := by
    show splitSpaces ('B' :: 'e' :: 'a' :: 'r' :: 'e' :: 'r' :: ' ' :: t) = _
    simp [splitSpaces, splitSpaces_of_no_space t h]
  unfold headerToken
  simp only []
  rw [if_neg h1]
  show Option.map String.mk ((splitSpaces ("Bearer ".toList ++ t)).get? 1) = _
  rw [h2]
  rfl

/-- C4: `authenticateToken` settles a request in exactly one of four ways.  Without a token
(no header, or no non-empty second word in it) it answers 401 "no token"; with a token that
`jwt.verify` rejects as expired it answers 401 "expired"; with a token rejected for any other
reason it answers 403 "invalid"; in these three cases `next` is not called and `req.user` is not
set.  With a token that verifies it sets `req.user` to the decoded claims, calls `next` once
and sends nothing.  So `next` is called if and only if the token verifies.  A header
`Bearer <t>` carries the token `t`. -/
theorem authenticateToken_four_ways (verify : String → Except JwtError Claims) (x : Exchange) :
    (truthy (headerToken x.authorization) = false →
      authenticateToken verify x =
        { x with response := some ⟨401, .message "Access denied. No token provided."⟩ }) ∧
    (∀ token error, headerToken x.authorization = some token → token ≠ "" →
      verify token = .error error → error.name = "TokenExpiredError" →
      authenticateToken verify x =
        { x with response := some ⟨401, .message "Token expired. Please log in again."⟩ }) ∧
    (∀ token error, headerToken x.authorization = some token → token ≠ "" →
      verify token = .error error → error.name ≠ "TokenExpiredError" →
      authenticateToken verify x = { x with response := some ⟨403, .message "Invalid token."⟩ }) ∧
    (∀ token decoded, headerToken x.authorization = some token → token ≠ "" →
      verify token = .ok decoded →
      authenticateToken verify x =
        { x with user := some decoded, nextCalls := x.nextCalls + 1 }) ∧
    ((authenticateToken verify x).nextCalls = x.nextCalls + 1 ↔
      ∃ token decoded, headerToken x.authorization = some token ∧ token ≠ "" ∧
        verify token = .ok decoded) ∧
    ((authenticateToken verify x).nextCalls ≠ x.nextCalls + 1 →
      (authenticateToken verify x).nextCalls = x.nextCalls ∧
      (authenticateToken verify x).user = x.user ∧
      ∃ status message, (authenticateToken verify x).response = some ⟨status, .message message⟩ ∧
        (status = 401 ∨ status = 403)) ∧
    (headerToken none = none ∧
      ∀ t : List Char, ' ' ∉ t →
        headerToken (some (String.mk ("Bearer ".toList ++ t))) = some (String.mk t)) := by
  refine ⟨?_, ?_, ?_, ?_, ?_, ?_, rfl, headerToken_bearer⟩
  · intro h
    unfold authenticateToken
    cases ht : headerToken x.authorization with
    | none => rfl
    | some token =>
      have : token = "" := by simpa [truthy, ht] using h
      simp [this]
  · intro token error ht hne hv hname
    simp [authenticateToken, ht, hne, hv, hname]
  · intro token error ht hne hv hname
    simp [authenticateToken, ht, hne, hv, hname]
  · intro token decoded ht hne hv
    simp [authenticateToken, ht, hne, hv]
  · unfold authenticateToken
    cases ht : headerToken x.authorization with
    | none => simp
    | some token =>
      by_cases hne : token = ""
      · simp [hne]
      · cases hv : verify token with
        | ok decoded => simp [hne, hv]
        | error error =>
          by_cases hname : error.name = "TokenExpiredError" <;> simp [hne, hv, hname]
  · unfold authenticateToken
    cases ht : headerToken x.authorization with
    | none => simp
    | some token =>
      by_cases hne : token = ""
      · simp [hne]
      · cases hv : verify token with
        | ok decoded => simp [hne, hv]
        | error error =>
          by_cases hname : error.name = "TokenExpiredError" <;> simp [hne, hv, hname]

/-- C4, on sample requests: a verified token, an expired one, a forged one, and no header. -/
theorem authenticateToken_four_ways_witness :
    authenticateToken sampleVerify ⟨some "Bearer good", none, none, 0⟩ =
      ⟨some "Bearer good", some sampleUser, none, 1⟩ ∧
    authenticateToken sampleVerify ⟨some "Bearer old", none, none, 0⟩ =
      ⟨some "Bearer old", none,
        some ⟨401, .message "Token expired. Please log in again."⟩, 0⟩ ∧
    authenticateToken sampleVerify ⟨some "Bearer forged", none, none, 0⟩ =
      ⟨some "Bearer forged", none, some ⟨403, .message "Invalid token."⟩, 0⟩ ∧
    authenticateToken sampleVerify ⟨none, none, none, 0⟩ =
      ⟨none, none, some ⟨401, .message "Access denied. No token provided."⟩, 0⟩ :=
  ⟨(authenticateToken_four_ways sampleVerify ⟨some "Bearer good", none, none, 0⟩).2.2.2.1
      "good" sampleUser (by decide) (by decide) (by simp [sampleVerify]),
    (authenticateToken_four_ways sampleVerify ⟨some "Bearer old", none, none, 0⟩).2.1
      "old" ⟨"TokenExpiredError", "jwt expired"⟩ (by decide) (by decide)
      (by simp [sampleVerify]) (by decide),
    (authenticateToken_four_ways sampleVerify ⟨some "Bearer forged", none, none, 0⟩).2.2.1
      "forged" ⟨"JsonWebTokenError", "invalid signature"⟩ (by decide) (by decide)
      (by simp [sampleVerify]) (by decide),
    (authenticateToken_four_ways sampleVerify ⟨none, none, none, 0⟩).1 (by decide)⟩

/-! ## Ownership scoping of update and delete -/

theorem runUpdate_of_no_match (rows : List Transaction) (now : Nat)
    (type amount description category payment_method date id userId : SqlValue)
    (h : ∀ r ∈ rows, (intEquals r.id id && intEquals r.user_id userId) = false) :
    runUpdate rows now type amount description category payment_method date id userId =
      .ok (⟨0⟩, rows) := by
  induction rows with
  | nil => rfl
  | cons r rest ih =>
    have h1 := h r (List.mem_cons_self _ _)
    have h2 := ih (fun x hx => h x (List.mem_cons_of_mem _ hx))
    simp [runUpdate, h2, h1]

theorem runDelete_of_no_match (rows : List Transaction) (id userId : SqlValue)
    (h : ∀ r ∈ rows, (intEquals r.id id && intEquals r.user_id userId) = false) :
    runDelete rows id userId = (⟨0⟩, rows) := by
  have h1 : rows.filter (fun r => intEquals r.id id && intEquals r.user_id userId) = [] :=
    List.filter_eq_nil_iff.mpr (fun r hr => by simp [h r hr])
  have h2 : rows.filter (fun r => !(intEquals r.id id && intEquals r.user_id userId)) = rows :=
    List.filter_eq_self.mpr (fun r hr => by simp [h r hr])
  unfold runDelete
  rw [h1, h2]
  rfl

theorem updateTransaction_of_no_match (isISO8601 : String → Bool) (rows : List Transaction)
    (now : Nat) (user : Claims) (id : String) (body : Body)
    (h : ∀ r ∈ rows,
      (intEquals r.id (.text id) && intEquals r.user_id (.num (.fin user.id))) = false) :
    updateTransaction isISO8601 rows now user id body =
      if idValidation id ++ transactionValidation isISO8601 body ≠ [] then
        ⟨⟨400, .validation "Validation errors"
          (idValidation id ++ transactionValidation isISO8601 body)⟩, rows, []⟩
      else
        ⟨⟨404, .message "Transaction not found or you do not have permission to update it"⟩,
          rows, [.run]⟩ := by
  unfold updateTransaction
  rw [runUpdate_of_no_match rows now _ _ _ _ _ _ _ _ h]
  simp

theorem deleteTransaction_of_no_match (rows : List Transaction) (user : Claims) (id : String)
    (h : ∀ r ∈ rows,
      (intEquals r.id (.text id) && intEquals r.user_id (.num (.fin user.id))) = false) :
    deleteTransaction rows user id =
      ⟨⟨404, .message "Transaction not found or you do not have permission to delete it"⟩,
        rows, [.run]⟩ := by
  unfold deleteTransaction
  rw [runDelete_of_no_match rows _ _ h]
  rfl

theorem no_match_of_other_owner (rows : List Transaction) (user : Claims) (id : String)
    (r : Transaction) (hkey : (rows.map (fun x => x.id)).Nodup) (hr : r ∈ rows)
    (hid : intEquals r.id (.text id) = true) (hown : r.user_id ≠ user.id) :
    ∀ x ∈ rows,
      (intEquals x.id (.text id) && intEquals x.user_id (.num (.fin user.id))) = false := by
  intro x hx
  by_cases hxid : intEquals x.id (.text id) = true
  · have e1 : sqlNumeric id = some (x.id : ℚ) := by simpa [intEquals] using hxid
    have e2 : sqlNumeric id = some (r.id : ℚ) := by simpa [intEquals] using hid
    have e3 : x.id = r.id := by
      have : (x.id : ℚ) = (r.id : ℚ) := Option.some.inj (e1.symm.trans e2)
      exact_mod_cast this
    have e4 : x = r := List.inj_on_of_nodup_map hkey hx hr e3
    subst e4
    have : intEquals x.user_id (.num (.fin user.id)) = false := by
      simp only [intEquals, decide_eq_false_iff_not]
      intro e
      exact hown (by exact_mod_cast e)
    simp [this]
  · simp [hxid]

/-- C1: let the row with the requested id belong to a user B other than the caller A (`id` is
the primary key of the table).  Then `updateTransaction` and `deleteTransaction` called by A
leave the whole table, that row included, as it was, and A's response is the response A gets
on any table in which no row has that id: for update the 400 of a body that fails validation or
else the 404, for delete the 404.  In particular deleting an id that does not exist answers
404, not 500. -/
theorem other_owner_same_as_missing (isISO8601 : String → Bool)
    (rows missing : List Transaction) (now : Nat) (a : Claims) (b : Nat) (id : String)
    (body : Body) (r : Transaction)
    (hkey : (rows.map (fun x => x.id)).Nodup) (hr : r ∈ rows)
    (hid : intEquals r.id (.text id) = true) (hb : r.user_id = b) (hab : a.id ≠ b)
    (hmissing : ∀ x ∈ missing, intEquals x.id (.text id) = false) :
    (updateTransaction isISO8601 rows now a id body).rows = rows ∧
    (deleteTransaction rows a id).rows = rows ∧
    (updateTransaction isISO8601 rows now a id body).response =
      (updateTransaction isISO8601 missing now a id body).response ∧
    (deleteTransaction rows a id).response = (deleteTransaction missing a id).response ∧
    (idValidation id ++ transactionValidation isISO8601 body = [] →
      (updateTransaction isISO8601 rows now a id body).response =
        ⟨404, .message "Transaction not found or you do not have permission to update it"⟩) ∧
    (deleteTransaction rows a id).response =
      ⟨404, .message "Transaction not found or you do not have permission to delete it"⟩ ∧
    (deleteTransaction missing a id).response =
      ⟨404, .message "Transaction not found or you do not have permission to delete it"⟩ ∧
    (deleteTransaction missing a id).rows = missing := by
  have h1 := no_match_of_other_owner rows a id r hkey hr hid (by rw [hb]; exact Ne.symm hab)
  have h2 : ∀ x ∈ missing,
      (intEquals x.id (.text id) && intEquals x.user_id (.num (.fin a.id))) = false :=
    fun x hx => by simp [hmissing x hx]
  rw [updateTransaction_of_no_match isISO8601 rows now a id body h1,
    updateTransaction_of_no_match isISO8601 missing now a id body h2,
    deleteTransaction_of_no_match rows a id h1, deleteTransaction_of_no_match missing a id h2]
  refine ⟨?_, rfl, ?_, rfl, ?_, rfl, rfl, rfl⟩
  · split <;> rfl
  · split <;> rfl
  · intro hv
    simp [hv]

/-- C1, on a sample table: user 1 asks to update and to delete row 5 of user 2, and to delete
from an empty table. -/
theorem other_owner_same_as_missing_witness :
    (updateTransaction (fun _ => true) [otherRow] 1710000500 sampleUser "5" sampleBody).rows =
      [otherRow] ∧
    (updateTransaction (fun _ => true) [otherRow] 1710000500 sampleUser "5" sampleBody).response =
      ⟨404, .message "Transaction not found or you do not have permission to update it"⟩ ∧
    (deleteTransaction [otherRow] sampleUser "5").rows = [otherRow] ∧
    (deleteTransaction [otherRow] sampleUser "5").response =
      ⟨404, .message "Transaction not found or you do not have permission to delete it"⟩ ∧
    (deleteTransaction [] sampleUser "5").response =
      ⟨404, .message "Transaction not found or you do not have permission to delete it"⟩ :=
  have h := other_owner_same_as_missing (fun _ => true) [otherRow] [] 1710000500 sampleUser 2 "5"
    sampleBody otherRow (by decide) (List.mem_singleton.mpr rfl) (by decide!) rfl (by decide)
    (by simp)
  ⟨h.1, h.2.2.2.2.1 (by decide!), h.2.1, h.2.2.2.2.2.1, h.2.2.2.2.2.2.1⟩

/-- The owner of the row, on the same table, does update it and does delete it. -/
theorem owner_updates_and_deletes :
    updateTransaction (fun _ => true) [otherRow] 1710000500 otherUser "5" sampleBody =
      ⟨⟨200, .message "Transaction updated successfully"⟩,
        [⟨5, 2, "expense", 25 / 2, "lunch", "food", none, "2024-03-15", 1710000000, 1710000500⟩],
        [.run]⟩ ∧
    deleteTransaction [otherRow] otherUser "5" =
      ⟨⟨200, .message "Transaction deleted successfully"⟩, [], [.run]⟩ := by
  decide!

/-! ## Validation of a transaction body -/

theorem isDigit_of_radixDigit_ten (c : Char) (d : Nat) (h : radixDigit 10 c = some d) :
    c.isDigit = true := by
  unfold radixDigit digitOf at h
  by_cases h1 : c.isDigit = true
  · exact h1
  · by_cases h2 : c.isLower = true
    · simp [h1, h2, Option.filter] at h
    · by_cases h3 : c.isUpper = true
      · simp [h1, h2, h3, Option.filter] at h
      · simp [h1, h2, h3, Option.filter] at h

theorem mem_readDigits (cs : List Char) :
    ∀ c ∈ cs, c.isDigit = true ∨ c ∈ (readDigits 10 cs).2 := by
  induction cs with
  | nil => intro c hc; cases hc
  | cons a as ih =>
    intro c hc
    unfold readDigits
    cases hr : radixDigit 10 a with
    | none => right; simpa using hc
    | some d =>
      simp only []
      rcases List.mem_cons.mp hc with rfl | hc
      · left; exact isDigit_of_radixDigit_ten _ d hr
      · exact ih c hc

theorem mem_readSign (cs : List Char) :
    ∀ c ∈ cs, c = '+' ∨ c = '-' ∨ c ∈ (readSign cs).2 := by
  intro c hc
  unfold readSign
  split
  · rcases List.mem_cons.mp hc with rfl | hc
    · left; rfl
    · right; right; exact hc
  · rcases List.mem_cons.mp hc with rfl | hc
    · right; left; rfl
    · right; right; exact hc
  · right; right; exact hc

theorem readSign_subset (cs : List Char) : ∀ c ∈ (readSign cs).2, c ∈ cs := by
  intro c hc
  unfold readSign at hc
  split at hc
  · exact List.mem_cons_of_mem _ hc
  · exact List.mem_cons_of_mem _ hc
  · exact hc

theorem mem_skipFraction (cs : List Char) :
    ∀ c ∈ cs, c = '.' ∨ c.isDigit = true ∨ c ∈ skipFraction cs := by
  intro c hc
  unfold skipFraction
  split
  · rcases List.mem_cons.mp hc with rfl | hc
    · left; rfl
    · rcases mem_readDigits _ c hc with hd | hd
      · right; left; exact hd
      · right; right; exact hd
  · right; right; exact hc

theorem floatChar_of_readExponent (r : List Char) (v : Int)
    (h : readExponent r = some (v, [])) : ∀ c ∈ r, floatChar c := by
  cases r with
  | nil => intro c hc; cases hc
  | cons e rest =>
    simp only [readExponent] at h
    by_cases he : e = 'e' ∨ e = 'E'
    · rw [if_pos he] at h
      have hrest : (readDigits 10 (readSign rest).2).2 = [] := by
        revert h
        cases hx : readDigits 10 (readSign rest).2 with
        | mk ds r2 =>
          cases ds with
          | nil => simp
          | cons d ds => simp
      intro c hc
      rcases List.mem_cons.mp hc with rfl | hc
      · rcases he with rfl | rfl
        · right; right; left; rfl
        · right; right; right; left; rfl
      · rcases mem_readSign rest c hc with rfl | rfl | hc
        · right; right; right; right; left; rfl
        · right; right; right; right; right; rfl
        · rcases mem_readDigits _ c hc with hd | hd
          · left; exact hd
          · rw [hrest] at hd; cases hd
    · rw [if_neg he] at h
      cases h

theorem floatChar_of_endsWithExponent (r : List Char) (h : endsWithExponent r = true) :
    ∀ c ∈ r, floatChar c := by
  cases r with
  | nil => intro c hc; cases hc
  | cons x xs =>
    simp only [endsWithExponent] at h
    cases hx : readExponent (x :: xs) with
    | none => rw [hx] at h; cases h
    | some p =>
      obtain ⟨v, rest⟩ := p
      cases rest with
      | nil => exact floatChar_of_readExponent _ v hx
      | cons y ys => rw [hx] at h; cases h

theorem floatChar_of_isFloatSyntax (cs : List Char) (h : isFloatSyntax cs = true) :
    ∀ c ∈ cs, floatChar c := by
  intro c hc
  unfold isFloatSyntax at h
  rcases mem_readSign cs c hc with rfl | rfl | hc
  · right; right; right; right; left; rfl
  · right; right; right; right; right; rfl
  · rcases mem_readDigits _ c hc with hd | hc
    · left; exact hd
    · rcases mem_skipFraction _ c hc with rfl | hd | hc
      · right; left; rfl
      · left; exact hd
      · exact floatChar_of_endsWithExponent _ h c hc

theorem replaceComma_of_not_mem (cs : List Char) (h : ',' ∉ cs) : replaceComma cs = cs := by
  induction cs with
  | nil => rfl
  | cons c cs ih =>
    have hc : c ≠ ',' := fun e => h (e ▸ List.mem_cons_self _ _)
    simp [replaceComma, hc, ih (fun e => h (List.mem_cons_of_mem _ e))]

theorem floatChar_ne (c : Char) (h : floatChar c) : c ≠ ',' ∧ c ≠ 'I' := by
  rcases h with h | rfl | rfl | rfl | rfl | rfl
  · constructor <;> (rintro rfl; revert h; decide)
  all_goals decide

theorem parseFloat_of_floatChars (s : String) (h : ∀ c ∈ s.toList, floatChar c) :
    parseFloat s = JsNum.nan ∨ ∃ q, parseFloat s = JsNum.fin q := by
  have hI : 'I' ∉ (readSign (trimStart s.toList)).2 := by
    intro hm
    have h1 := readSign_subset _ _ hm
    have h2 : 'I' ∈ s.toList := (List.dropWhile_sublist _).subset h1
    exact (floatChar_ne _ (h _ h2)).2 rfl
  have hpre : "Infinity".toList.isPrefixOf (readSign (trimStart s.toList)).2 = false := by
    cases hp : "Infinity".toList.isPrefixOf (readSign (trimStart s.toList)).2 with
    | false => rfl
    | true =>
      exfalso
      have hp2 := List.isPrefixOf_iff_prefix.mp hp
      obtain ⟨t, ht⟩ := hp2
      apply hI
      rw [← ht]
      exact List.mem_append_left _ (by decide)
  unfold parseFloat readStrDecimal
  rw [hpre]
  cases readDecimal (readSign (trimStart s.toList)).2 with
  | none => left; rfl
  | some p =>
    right
    by_cases hs : (readSign (trimStart s.toList)).1 = true
    · exact ⟨-p.1.toRat, by simp only [Option.map, hs]; rfl⟩
    · exact ⟨p.1.toRat, by simp only [Option.map, hs]; rfl⟩

theorem isFloat_iff (s : String) :
    isFloat (1 / 100) s = true ↔
      isFloatSyntax s.toList = true ∧ ∃ q : ℚ, parseFloat s = JsNum.fin q ∧ 1 / 100 ≤ q := by
  constructor
  · intro h
    simp only [isFloat, Bool.and_eq_true] at h
    obtain ⟨⟨_, hsyn⟩, hge⟩ := h
    have hchars := floatChar_of_isFloatSyntax _ hsyn
    have hcomma : ',' ∉ s.toList := fun hm => (floatChar_ne _ (hchars _ hm)).1 rfl
    rw [replaceComma_of_not_mem _ hcomma] at hge
    have hs : String.mk s.toList = s := rfl
    rw [hs] at hge
    refine ⟨hsyn, ?_⟩
    rcases parseFloat_of_floatChars s hchars with hn | ⟨q, hq⟩
    · rw [hn] at hge; simp [JsNum.ge] at hge
    · rw [hq] at hge
      exact ⟨q, hq, by simpa [JsNum.ge] using hge⟩
  · rintro ⟨hsyn, q, hq, hle⟩
    have hchars := floatChar_of_isFloatSyntax _ hsyn
    have hcomma : ',' ∉ s.toList := fun hm => (floatChar_ne _ (hchars _ hm)).1 rfl
    have hs : String.mk s.toList = s := rfl
    have hspecial : ["", ".", ",", "-", "+"].contains s = false := by
      cases hc : ["", ".", ",", "-", "+"].contains s with
      | false => rfl
      | true =>
        exfalso
        simp at hc
        rcases hc with rfl | rfl | rfl | rfl | rfl
        · have : parseFloat "" = JsNum.nan := by decide!
          rw [this] at hq; cases hq
        · have : parseFloat "." = JsNum.nan := by decide!
          rw [this] at hq; cases hq
        · have : parseFloat "," = JsNum.nan := by decide!
          rw [this] at hq; cases hq
        · have : parseFloat "-" = JsNum.nan := by decide!
          rw [this] at hq; cases hq
        · have : parseFloat "+" = JsNum.nan := by decide!
          rw [this] at hq; cases hq
    simp only [isFloat, Bool.and_eq_true]
    rw [replaceComma_of_not_mem _ hcomma, hs, hq]
    rw [hspecial]
    refine ⟨⟨rfl, hsyn⟩, ?_⟩
    simpa [JsNum.ge] using hle


theorem length_pos_iff_ne_empty (s : String) : 1 ≤ s.length ↔ s ≠ "" := by
  constructor
  · intro h e
    rw [e] at h
    exact absurd h (by decide)
  · intro h
    cases s with
    | mk data =>
      cases data with
      | nil => exact absurd rfl h
      | cons c cs => simp [String.length]

theorem type_allowed_iff (t : Option String) :
    ["expense", "revenue"].contains (fieldText t) = true ↔
      t = some "expense" ∨ t = some "revenue" := by
  cases t with
  | none => simp [fieldText]
  | some v => simp [fieldText]

theorem transactionValidation_eq_nil_iff (isISO8601 : String → Bool) (body : Body) :
    transactionValidation isISO8601 body = [] ↔
      (body.type = some "expense" ∨ body.type = some "revenue") ∧
      (isFloatSyntax (fieldText body.amount).toList = true ∧
        ∃ q : ℚ, parseFloat (fieldText body.amount) = JsNum.fin q ∧ 1 / 100 ≤ q) ∧
      trim (fieldText body.description) ≠ "" ∧
      isISO8601 (fieldText body.date) = true := by
  rw [← type_allowed_iff, ← isFloat_iff, ← length_pos_iff_ne_empty]
  unfold transactionValidation isLength
  simp only [List.append_eq_nil, ite_eq_left_iff, decide_eq_true_eq]
  constructor
  · rintro ⟨⟨⟨h1, h2⟩, h3⟩, h4⟩
    refine ⟨?_, ?_, ?_, ?_⟩
    · by_contra h; exact absurd (h1 h) (by simp)
    · by_contra h; exact absurd (h2 h) (by simp)
    · by_contra h; exact absurd (h3 h) (by simp)
    · by_contra h; exact absurd (h4 h) (by simp)
  · rintro ⟨h1, h2, h3, h4⟩
    exact ⟨⟨⟨fun h => absurd h1 h, fun h => absurd h2 h⟩, fun h => absurd h3 h⟩,
      fun h => absurd h4 h⟩

/-- C10 as stated fails: an amount of `0.005` is a number greater than 0, type, description and
date are in order (the date check being one that passes every date), and the body is rejected
with the amount error. -/
theorem half_cent_amount_rejected :
    parseFloat "0.005" = JsNum.fin (1 / 200) ∧ (0 : ℚ) < 1 / 200 ∧
    transactionValidation (fun _ => true) halfCentBody =
      [⟨"body", "amount", "Amount must be a positive number", "0.005"⟩] := by
  decide!

/-- C10, amended: `transactionValidation` accepts a body if and only if type is exactly
`expense` or `revenue`, amount is a float literal whose value is at least 0.01, description is
non-empty after trimming, and date passes the `isISO8601` check.  So every amount of at least
0.01 is accepted, every amount below 0.01 (every amount `<= 0` among them) is rejected, and any
other type string is rejected. -/
theorem transactionValidation_accepts_iff (isISO8601 : String → Bool) (body : Body) :
    (transactionValidation isISO8601 body = [] ↔
      (body.type = some "expense" ∨ body.type = some "revenue") ∧
      (isFloatSyntax (fieldText body.amount).toList = true ∧
        ∃ q : ℚ, parseFloat (fieldText body.amount) = JsNum.fin q ∧ 1 / 100 ≤ q) ∧
      trim (fieldText body.description) ≠ "" ∧
      isISO8601 (fieldText body.date) = true) ∧
    (∀ q : ℚ, parseFloat (fieldText body.amount) = JsNum.fin q → q < 1 / 100 →
      transactionValidation isISO8601 body ≠ []) ∧
    (body.type ≠ some "expense" → body.type ≠ some "revenue" →
      transactionValidation isISO8601 body ≠ []) := by
  refine ⟨transactionValidation_eq_nil_iff isISO8601 body, ?_, ?_⟩
  · intro q hq hlt h
    obtain ⟨_, ⟨_, q2, hq2, hle⟩, _⟩ := (transactionValidation_eq_nil_iff isISO8601 body).mp h
    rw [hq] at hq2
    cases hq2
    exact absurd hle (not_le.mpr hlt)
  · intro h1 h2 h
    rcases ((transactionValidation_eq_nil_iff isISO8601 body).mp h).1 with h3 | h3
    · exact h1 h3
    · exact h2 h3

/-- C10, amended, on sample bodies: an amount of 12.50 passes, an expense of zero does not. -/
theorem transactionValidation_accepts_iff_witness :
    transactionValidation (fun _ => true) sampleBody = [] ∧
    transactionValidation (fun _ => true) { sampleBody with amount := some "0" } ≠ [] :=
  ⟨(transactionValidation_accepts_iff (fun _ => true) sampleBody).1.mpr
      ⟨by decide, ⟨by decide!, 25 / 2, by decide!, by norm_num⟩, by decide!, rfl⟩,
    (transactionValidation_accepts_iff (fun _ => true) { sampleBody with amount := some "0" }).2.1
      0 (by decide!) (by norm_num)⟩

/-! ## The queries of `getTransactions` -/

theorem truthy_cases (v : Option String) :
    (truthy v = false ∧ (v = none ∨ v = some "")) ∨ (∃ s, v = some s ∧ s ≠ "" ∧ truthy v = true) := by
  cases v with
  | none => left; exact ⟨rfl, Or.inl rfl⟩
  | some s =>
    by_cases h : s = ""
    · left; subst h; exact ⟨rfl, Or.inr rfl⟩
    · right; exact ⟨s, rfl, h, by simp [truthy, h]⟩

theorem listQuery_eq (userId : Nat) (q : ListQuery) :
    listQuery userId q =
      (Fragment.selectRows :: (suppliedConjuncts q ++ [.orderBy, .limitOffset]),
        SqlValue.num (.fin userId) :: (suppliedValues q ++
          [.num (withDefault q.limit 10).parseInt,
            .num ((((withDefault q.page 1).toNumber).sub (.fin 1)).mul
              (withDefault q.limit 10).toNumber)])) := by
  unfold listQuery suppliedConjuncts suppliedValues
  cases truthy q.type <;> cases truthy q.category <;> cases truthy q.startDate <;>
    cases truthy q.endDate <;> rfl

theorem countQuery_eq (userId : Nat) (q : ListQuery) :
    countQuery userId q =
      (Fragment.selectCount :: suppliedConjuncts q,
        SqlValue.num (.fin userId) :: suppliedValues q) := by
  unfold countQuery suppliedConjuncts suppliedValues
  cases truthy q.type <;> cases truthy q.category <;> cases truthy q.startDate <;>
    cases truthy q.endDate <;> rfl

theorem conjunctsHold_step (v : Option String) (f : Fragment) (fs : List Fragment)
    (ps : List SqlValue) (r : Transaction) :
    conjunctsHold ((if truthy v then [f] else []) ++ fs)
        ((if truthy v then [bindField v] else []) ++ ps) r =
      (filterHolds v (fun s => conjunctHolds f (.text s) r) && conjunctsHold fs ps r) := by
  cases v with
  | none => simp [truthy, filterHolds]
  | some s =>
    by_cases h : s = ""
    · simp [truthy, filterHolds, h]
    · simp [truthy, filterHolds, h, conjunctsHold, bindField]

theorem where_holds (userId : Nat) (q : ListQuery) (r : Transaction) (extra : List SqlValue) :
    (intEquals r.user_id (.num (.fin userId)) &&
      conjunctsHold (suppliedConjuncts q) (suppliedValues q ++ extra) r) =
      matchesFilters userId q r := by
  have h0 : intEquals r.user_id (.num (.fin userId)) = decide (r.user_id = userId) := by
    simp [intEquals]
  have h5 : conjunctsHold [] extra r = true := by
    cases extra <;> rfl
  unfold suppliedConjuncts suppliedValues matchesFilters
  have h4 := conjunctsHold_step q.endDate .andDateLe [] extra r
  simp only [List.append_nil] at h4
  simp only [List.append_assoc]
  rw [conjunctsHold_step, conjunctsHold_step, conjunctsHold_step, h4, h5, h0]
  simp [conjunctHolds, Bool.and_assoc]

theorem suppliedValues_length (q : ListQuery) :
    (suppliedValues q).length = (suppliedConjuncts q).length := by
  unfold suppliedConjuncts suppliedValues
  cases truthy q.type <;> cases truthy q.category <;> cases truthy q.startDate <;>
    cases truthy q.endDate <;> rfl

theorem suppliedConjuncts_isConjunct (q : ListQuery) :
    ∀ f ∈ suppliedConjuncts q, f.isConjunct = true := by
  unfold suppliedConjuncts
  cases truthy q.type <;> cases truthy q.category <;> cases truthy q.startDate <;>
    cases truthy q.endDate <;> simp [Fragment.isConjunct]

theorem dropWhile_append_of_all {α : Type} (p : α → Bool) (l rest : List α)
    (h : ∀ x ∈ l, p x = true) : (l ++ rest).dropWhile p = rest.dropWhile p := by
  induction l with
  | nil => rfl
  | cons a l ih =>
    simp [List.dropWhile, h a (List.mem_cons_self _ _),
      ih (fun x hx => h x (List.mem_cons_of_mem _ hx))]

theorem takeWhile_append_of_all {α : Type} (p : α → Bool) (l rest : List α)
    (h : ∀ x ∈ l, p x = true) : (l ++ rest).takeWhile p = l ++ rest.takeWhile p := by
  induction l with
  | nil => rfl
  | cons a l ih =>
    simp [List.takeWhile, h a (List.mem_cons_self _ _),
      ih (fun x hx => h x (List.mem_cons_of_mem _ hx))]

theorem selectRows_where (rows : List Transaction) (head : Fragment)
    (hh : head = .selectRows ∨ head = .selectCount) (userId : Nat) (q : ListQuery) :
    selectRows rows (head :: suppliedConjuncts q) (.num (.fin userId) :: suppliedValues q) =
      .ok (rows.filter (matchesFilters userId q)) := by
  have hp : parseSelect (head :: suppliedConjuncts q) =
      some ⟨head = .selectCount, suppliedConjuncts q, false, false⟩ := by
    have h1 := dropWhile_append_of_all Fragment.isConjunct (suppliedConjuncts q) []
      (suppliedConjuncts_isConjunct q)
    have h2 := takeWhile_append_of_all Fragment.isConjunct (suppliedConjuncts q) []
      (suppliedConjuncts_isConjunct q)
    simp only [List.append_nil, List.dropWhile_nil, List.takeWhile_nil] at h1 h2
    simp only [parseSelect, if_pos hh, h1, h2]
  have hw := fun r => where_holds userId q r []
  simp only [List.append_nil] at hw
  have hlen : ¬ (1 + (suppliedConjuncts q).length + 0 <
      (SqlValue.num (.fin userId) :: suppliedValues q).length) := by
    simp [suppliedValues_length]
    omega
  unfold selectRows
  rw [hp]
  simp only [Bool.false_eq_true, if_false, hlen, List.getD_cons_zero, List.drop_one,
    List.tail_cons, hw]

theorem selectRows_ordered (rows : List Transaction) (userId : Nat) (q : ListQuery) :
    selectRows rows (.selectRows :: (suppliedConjuncts q ++ [.orderBy]))
        (.num (.fin userId) :: suppliedValues q) =
      .ok ((rows.filter (matchesFilters userId q)).insertionSort newestFirst) := by
  have hp : parseSelect (.selectRows :: (suppliedConjuncts q ++ [.orderBy])) =
      some ⟨false, suppliedConjuncts q, true, false⟩ := by
    have h1 := dropWhile_append_of_all Fragment.isConjunct (suppliedConjuncts q) [.orderBy]
      (suppliedConjuncts_isConjunct q)
    have h2 := takeWhile_append_of_all Fragment.isConjunct (suppliedConjuncts q) [.orderBy]
      (suppliedConjuncts_isConjunct q)
    simp [parseSelect, h1, h2, List.dropWhile, List.takeWhile, Fragment.isConjunct]
  have hw := fun r => where_holds userId q r []
  simp only [List.append_nil] at hw
  have hlen : ¬ (1 + (suppliedConjuncts q).length + 0 <
      (SqlValue.num (.fin userId) :: suppliedValues q).length) := by
    simp [suppliedValues_length]
    omega
  unfold selectRows
  rw [hp]
  simp only [Bool.false_eq_true, if_false, hlen, List.getD_cons_zero, List.drop_one,
    List.tail_cons, hw]
  congr

theorem selectRows_paged (rows : List Transaction) (userId : Nat) (q : ListQuery)
    (l o : SqlValue) :
    selectRows rows (.selectRows :: (suppliedConjuncts q ++ [.orderBy, .limitOffset]))
        (.num (.fin userId) :: (suppliedValues q ++ [l, o])) =
      match asInteger l, asInteger o with
      | some l, some o =>
        .ok (applyLimit l o ((rows.filter (matchesFilters userId q)).insertionSort newestFirst))
      | _, _ => .error ⟨"SQLITE_MISMATCH: datatype mismatch"⟩ := by
  have hp : parseSelect (.selectRows :: (suppliedConjuncts q ++ [.orderBy, .limitOffset])) =
      some ⟨false, suppliedConjuncts q, true, true⟩ := by
    have h1 := dropWhile_append_of_all Fragment.isConjunct (suppliedConjuncts q)
      [.orderBy, .limitOffset] (suppliedConjuncts_isConjunct q)
    have h2 := takeWhile_append_of_all Fragment.isConjunct (suppliedConjuncts q)
      [.orderBy, .limitOffset] (suppliedConjuncts_isConjunct q)
    simp [parseSelect, h1, h2, List.dropWhile, List.takeWhile, Fragment.isConjunct]
  have hl : (SqlValue.num (.fin userId) :: (suppliedValues q ++ [l, o])).getD
      (1 + (suppliedConjuncts q).length) .null = l := by
    rw [← suppliedValues_length, Nat.add_comm, List.getD_cons_succ,
      List.getD_append_right _ _ _ _ (le_refl _)]
    simp
  have ho : (SqlValue.num (.fin userId) :: (suppliedValues q ++ [l, o])).getD
      (2 + (suppliedConjuncts q).length) .null = o := by
    rw [← suppliedValues_length, show 2 + (suppliedValues q).length =
      ((suppliedValues q).length + 1) + 1 by omega, List.getD_cons_succ,
      List.getD_append_right _ _ _ _ (Nat.le_succ _)]
    simp
  have hw := fun r => where_holds userId q r [l, o]
  have hlen : ¬ (1 + (suppliedConjuncts q).length + 2 <
      (SqlValue.num (.fin userId) :: (suppliedValues q ++ [l, o])).length) := by
    simp [suppliedValues_length]
    omega
  unfold selectRows
  rw [hp]
  simp only [if_true, hlen, if_false, hl, ho, List.getD_cons_zero, List.drop_one,
    List.tail_cons, hw]

theorem truthy_iff_supplied (v : Option String) : truthy v = true ↔ supplied v := by
  cases v with
  | none => simp [truthy, supplied]
  | some s => simp [truthy, supplied]

theorem listQuery_placeholders (userId : Nat) (q : ListQuery) :
    placeholders (sqlText (listQuery userId q).1) = (listQuery userId q).2.length := by
  rw [listQuery_eq]
  unfold suppliedConjuncts suppliedValues
  cases truthy q.type <;> cases truthy q.category <;> cases truthy q.startDate <;>
    cases truthy q.endDate <;> rfl

theorem countQuery_placeholders (userId : Nat) (q : ListQuery) :
    placeholders (sqlText (countQuery userId q).1) = (countQuery userId q).2.length := by
  rw [countQuery_eq]
  unfold suppliedConjuncts suppliedValues
  cases truthy q.type <;> cases truthy q.category <;> cases truthy q.startDate <;>
    cases truthy q.endDate <;> rfl

/-- The text of the list query when type and endDate are supplied, with its five parameters. -/
theorem listQuery_text_sample :
    sqlText (listQuery 1
      ⟨some "2", none, some "expense", some "", none, some "2024-03-31"⟩).1 =
      "SELECT * FROM transactions WHERE user_id = ? AND type = ? AND date <= ? ORDER BY date DESC, created_at DESC LIMIT ? OFFSET ?" ∧
    (listQuery 1 ⟨some "2", none, some "expense", some "", none, some "2024-03-31"⟩).2 =
      [.num (.fin 1), .text "expense", .text "2024-03-31", .num (.fin 10), .num (.fin 10)] := by
  decide!

/-- C5: the list query of `getTransactions` is `user_id = ?` followed by one conjunct per
supplied filter, in the order type, category, startDate, endDate, then `ORDER BY` and
`LIMIT ? OFFSET ?`; a filter that is not supplied adds no conjunct and no parameter.  The
parameters are the caller's id, the values of the supplied filters in the same order, then limit
and offset, so their number is the number of placeholders of the text.  Read by the engine, the
`WHERE` clause keeps exactly the caller's rows on which every supplied filter holds. -/
theorem listQuery_one_conjunct_per_filter (userId : Nat) (q : ListQuery) :
    (listQuery userId q).1 =
      Fragment.selectRows ::
        ((if supplied q.type then [Fragment.andType] else []) ++
          (if supplied q.category then [Fragment.andCategory] else []) ++
          (if supplied q.startDate then [Fragment.andDateGe] else []) ++
          (if supplied q.endDate then [Fragment.andDateLe] else []) ++
          [Fragment.orderBy, Fragment.limitOffset]) ∧
    (listQuery userId q).2 =
      SqlValue.num (.fin userId) ::
        ((if supplied q.type then [bindField q.type] else []) ++
          (if supplied q.category then [bindField q.category] else []) ++
          (if supplied q.startDate then [bindField q.startDate] else []) ++
          (if supplied q.endDate then [bindField q.endDate] else []) ++
          [.num (withDefault q.limit 10).parseInt,
            .num ((((withDefault q.page 1).toNumber).sub (.fin 1)).mul
              (withDefault q.limit 10).toNumber)]) ∧
    placeholders (sqlText (listQuery userId q).1) = (listQuery userId q).2.length ∧
    (∀ rows : List Transaction,
      selectRows rows (listQuery userId q).1.dropLast.dropLast
          (listQuery userId q).2.dropLast.dropLast =
        .ok (rows.filter (matchesFilters userId q))) := by
  have e1 : suppliedConjuncts q =
      (if supplied q.type then [Fragment.andType] else []) ++
      (if supplied q.category then [Fragment.andCategory] else []) ++
      (if supplied q.startDate then [Fragment.andDateGe] else []) ++
      (if supplied q.endDate then [Fragment.andDateLe] else []) := by
    simp only [suppliedConjuncts, truthy_iff_supplied]
  have e2 : suppliedValues q =
      (if supplied q.type then [bindField q.type] else []) ++
      (if supplied q.category then [bindField q.category] else []) ++
      (if supplied q.startDate then [bindField q.startDate] else []) ++
      (if supplied q.endDate then [bindField q.endDate] else []) := by
    simp only [suppliedValues, truthy_iff_supplied]
  refine ⟨?_, ?_, listQuery_placeholders userId q, ?_⟩
  · rw [listQuery_eq, e1]
  · rw [listQuery_eq, e2]
  · intro rows
    rw [listQuery_eq]
    have d1 : (Fragment.selectRows ::
        (suppliedConjuncts q ++ [.orderBy, .limitOffset])).dropLast.dropLast =
        .selectRows :: suppliedConjuncts q := by
      rw [show Fragment.selectRows :: (suppliedConjuncts q ++ [.orderBy, .limitOffset]) =
        ((Fragment.selectRows :: suppliedConjuncts q) ++ [.orderBy]) ++ [.limitOffset] by simp]
      rw [List.dropLast_concat, List.dropLast_concat]
    have d2 : ∀ l o : SqlValue, (SqlValue.num (.fin userId) ::
        (suppliedValues q ++ [l, o])).dropLast.dropLast =
        .num (.fin userId) :: suppliedValues q := by
      intro l o
      rw [show SqlValue.num (.fin userId) :: (suppliedValues q ++ [l, o]) =
        ((SqlValue.num (.fin userId) :: suppliedValues q) ++ [l]) ++ [o] by simp]
      rw [List.dropLast_concat, List.dropLast_concat]
    simp only [d1, d2]
    exact selectRows_where rows _ (Or.inl rfl) userId q

theorem getTransactions_eq (rows : List Transaction) (user : Claims) (q : ListQuery) :
    getTransactions rows user q =
      match asInteger (.num (withDefault q.limit 10).parseInt),
          asInteger (.num ((((withDefault q.page 1).toNumber).sub (.fin 1)).mul
            (withDefault q.limit 10).toNumber)) with
      | some l, some o =>
        ⟨⟨200, .listing
            (applyLimit l o ((rows.filter (matchesFilters user.id q)).insertionSort newestFirst))
            { page := (withDefault q.page 1).parseInt
              limit := (withDefault q.limit 10).parseInt
              total := (rows.filter (matchesFilters user.id q)).length
              pages := (JsNum.div (.fin ((rows.filter (matchesFilters user.id q)).length : ℚ))
                (withDefault q.limit 10).toNumber).ceil }⟩, rows, [.all, .get]⟩
      | _, _ =>
        ⟨⟨500, .failure "Server error getting transactions"
            "SQLITE_MISMATCH: datatype mismatch"⟩, rows, [.all]⟩ := by
  unfold getTransactions databaseAll databaseGet
  rw [listQuery_eq, countQuery_eq]
  simp only []
  rw [selectRows_paged, selectRows_where rows _ (Or.inr rfl)]
  cases asInteger (.num (withDefault q.limit 10).parseInt) with
  | none => rfl
  | some l =>
    cases asInteger (.num ((((withDefault q.page 1).toNumber).sub (.fin 1)).mul
        (withDefault q.limit 10).toNumber)) with
    | none => rfl
    | some o => rfl

/-- C6: the counting query of `getTransactions` is the list query without its `ORDER BY`,
`LIMIT` and `OFFSET`: after the `SELECT ... WHERE user_id = ?` head it has the same conjuncts,
and it is run with the same parameters.  Hence the engine counts exactly the rows the list query
returns once its pagination is removed, and this count is the `total` of every successful
response. -/
theorem count_query_same_predicate (rows : List Transaction) (user : Claims) (q : ListQuery) :
    (listQuery user.id q).1.dropLast.dropLast.tail = (countQuery user.id q).1.tail ∧
    (listQuery user.id q).1.head? = some Fragment.selectRows ∧
    (countQuery user.id q).1.head? = some Fragment.selectCount ∧
    (listQuery user.id q).1.drop ((listQuery user.id q).1.length - 2) =
      [Fragment.orderBy, Fragment.limitOffset] ∧
    (listQuery user.id q).2.dropLast.dropLast = (countQuery user.id q).2 ∧
    databaseGet rows (countQuery user.id q).1 (countQuery user.id q).2 =
      .ok (rows.filter (matchesFilters user.id q)).length ∧
    databaseAll rows (listQuery user.id q).1.dropLast.dropLast
        (listQuery user.id q).2.dropLast.dropLast =
      .ok (rows.filter (matchesFilters user.id q)) ∧
    databaseAll rows (listQuery user.id q).1.dropLast (listQuery user.id q).2.dropLast.dropLast =
      .ok ((rows.filter (matchesFilters user.id q)).insertionSort newestFirst) ∧
    ((rows.filter (matchesFilters user.id q)).insertionSort newestFirst).length =
      (rows.filter (matchesFilters user.id q)).length ∧
    (∀ ts pg, (getTransactions rows user q).response = ⟨200, .listing ts pg⟩ →
      pg.total = (rows.filter (matchesFilters user.id q)).length) := by
  have d1 : (Fragment.selectRows ::
      (suppliedConjuncts q ++ [.orderBy, .limitOffset])).dropLast =
      .selectRows :: (suppliedConjuncts q ++ [.orderBy]) := by
    rw [show Fragment.selectRows :: (suppliedConjuncts q ++ [.orderBy, .limitOffset]) =
      ((Fragment.selectRows :: (suppliedConjuncts q ++ [.orderBy])) ++ [.limitOffset]) by simp]
    rw [List.dropLast_concat]
  have d1' : (Fragment.selectRows :: (suppliedConjuncts q ++ [.orderBy])).dropLast =
      .selectRows :: suppliedConjuncts q := by
    rw [show Fragment.selectRows :: (suppliedConjuncts q ++ [.orderBy]) =
      ((Fragment.selectRows :: suppliedConjuncts q) ++ [.orderBy]) by simp]
    rw [List.dropLast_concat]
  have d2 : ∀ l o : SqlValue, (SqlValue.num (.fin user.id) ::
      (suppliedValues q ++ [l, o])).dropLast.dropLast =
      .num (.fin user.id) :: suppliedValues q := by
    intro l o
    rw [show SqlValue.num (.fin user.id) :: (suppliedValues q ++ [l, o]) =
      ((SqlValue.num (.fin user.id) :: suppliedValues q) ++ [l]) ++ [o] by simp]
    rw [List.dropLast_concat, List.dropLast_concat]
  refine ⟨?_, ?_, ?_, ?_, ?_, ?_, ?_, ?_, ?_, ?_⟩
  · rw [listQuery_eq, countQuery_eq]
    simp only [d1, d1']
    rfl
  · rw [listQuery_eq]
    rfl
  · rw [countQuery_eq]
    rfl
  · rw [listQuery_eq]
    simp
  · rw [listQuery_eq, countQuery_eq]
    simp only [d2]
  · rw [countQuery_eq]
    unfold databaseGet
    rw [selectRows_where rows _ (Or.inr rfl)]
  · rw [listQuery_eq]
    simp only [d1, d1', d2]
    exact selectRows_where rows _ (Or.inl rfl) user.id q
  · rw [listQuery_eq]
    simp only [d1, d2]
    exact selectRows_ordered rows user.id q
  · exact List.length_insertionSort _ _
  · intro ts pg h
    rw [getTransactions_eq] at h
    revert h
    cases asInteger (.num (withDefault q.limit 10).parseInt) with
    | none => intro h; cases h
    | some l =>
      cases asInteger (.num ((((withDefault q.page 1).toNumber).sub (.fin 1)).mul
          (withDefault q.limit 10).toNumber)) with
      | none => intro h; cases h
      | some o =>
        intro h
        simp only [Response.mk.injEq, ResBody.listing.injEq] at h
        rw [← h.2.2]

/-! ## Pagination -/

theorem asInteger_natCast (n : Nat) : asInteger (.num (.fin (n : ℚ))) = some (n : Int) := by
  simp [asInteger]

theorem applyLimit_natCast (l o : Nat) (xs : List Transaction) :
    applyLimit (l : Int) (o : Int) xs = (xs.drop o).take l := by
  simp [applyLimit]

theorem withDefault_of_nat (v : Option String) (d n : Nat)
    (h : v = some (toString n) ∨ (v = none ∧ n = d)) :
    (withDefault v d).toNumber = .fin (n : ℚ) ∧ (withDefault v d).parseInt = .fin (n : ℚ) := by
  rcases h with rfl | ⟨rfl, rfl⟩
  · exact ⟨strToNumber_toString n, parseInt_toString n⟩
  · exact ⟨rfl, rfl⟩

theorem offset_of_nat (p l : Nat) (hp : 0 < p) :
    ((JsNum.fin (p : ℚ)).sub (.fin 1)).mul (.fin (l : ℚ)) = .fin (((p - 1) * l : ℕ) : ℚ) := by
  simp only [JsNum.sub, JsNum.mul]
  congr 1
  have : 1 ≤ p := hp
  push_cast [Nat.cast_sub this]
  ring

theorem pages_of_nat (total l : Nat) (hl : 0 < l) :
    (JsNum.div (.fin (total : ℚ)) (.fin (l : ℚ))).ceil =
      .fin ((⌈(total : ℚ) / (l : ℚ)⌉ : ℤ) : ℚ) := by
  have : (l : ℚ) ≠ 0 := by exact_mod_cast (Nat.pos_iff_ne_zero.mp hl)
  simp [JsNum.div, JsNum.ceil, this]

theorem getTransactions_of_nat (rows : List Transaction) (user : Claims) (q : ListQuery)
    (p l : Nat) (hp : 0 < p) (hl : 0 < l)
    (hpage : q.page = some (toString p) ∨ (q.page = none ∧ p = 1))
    (hlimit : q.limit = some (toString l) ∨ (q.limit = none ∧ l = 10)) :
    getTransactions rows user q =
      ⟨⟨200, .listing
          ((((rows.filter (matchesFilters user.id q)).insertionSort newestFirst).drop
            ((p - 1) * l)).take l)
          { page := .fin (p : ℚ)
            limit := .fin (l : ℚ)
            total := (rows.filter (matchesFilters user.id q)).length
            pages := .fin ((⌈((rows.filter (matchesFilters user.id q)).length : ℚ) /
              (l : ℚ)⌉ : ℤ) : ℚ) }⟩, rows, [.all, .get]⟩ := by
  obtain ⟨hp1, hp2⟩ := withDefault_of_nat q.page 1 p hpage
  obtain ⟨hl1, hl2⟩ := withDefault_of_nat q.limit 10 l hlimit
  rw [getTransactions_eq, hp1, hp2, hl1, hl2, offset_of_nat p l hp, asInteger_natCast,
    asInteger_natCast]
  simp only [applyLimit_natCast, pages_of_nat _ l hl]

theorem listQuery_paging_params (userId : Nat) (q : ListQuery) (p l : Nat) (hp : 0 < p)
    (hpage : q.page = some (toString p) ∨ (q.page = none ∧ p = 1))
    (hlimit : q.limit = some (toString l) ∨ (q.limit = none ∧ l = 10)) :
    (listQuery userId q).2.drop ((listQuery userId q).2.length - 2) =
      [.num (.fin (l : ℚ)), .num (.fin (((p - 1) * l : ℕ) : ℚ))] := by
  obtain ⟨hp1, _⟩ := withDefault_of_nat q.page 1 p hpage
  obtain ⟨hl1, hl2⟩ := withDefault_of_nat q.limit 10 l hlimit
  rw [listQuery_eq]
  simp only [hp1, hl1, hl2, offset_of_nat p l hp]
  rw [show SqlValue.num (.fin (userId : ℚ)) :: (suppliedValues q ++
      [.num (.fin (l : ℚ)), .num (.fin (((p - 1) * l : ℕ) : ℚ))]) =
    (SqlValue.num (.fin (userId : ℚ)) :: suppliedValues q) ++
      [.num (.fin (l : ℚ)), .num (.fin (((p - 1) * l : ℕ) : ℚ))] by simp]
  rw [List.length_append]
  simp

/-- C7: pagination is 1-indexed.  For positive integers `page` and `limit`, sent in decimal or
left out (then 1 and 10), the list query is run with `LIMIT = limit` and
`OFFSET = (page - 1) * limit`, the response carries the rows of the ordered result from position
`(page - 1) * limit` on, at most `limit` of them, and the metadata report `page`, `limit`, the
number of matching rows and `pages = ceil(total / limit)`.  With page 2 and limit 10 over 25
matching rows the offset is 10, the response has the 10 rows numbered 11 to 20 of the ordering,
and `pages` is 3. -/
theorem pagination_one_indexed (rows : List Transaction) (user : Claims) (q : ListQuery)
    (p l : Nat) (hp : 0 < p) (hl : 0 < l)
    (hpage : q.page = some (toString p) ∨ (q.page = none ∧ p = 1))
    (hlimit : q.limit = some (toString l) ∨ (q.limit = none ∧ l = 10)) :
    (listQuery user.id q).2.drop ((listQuery user.id q).2.length - 2) =
      [.num (.fin (l : ℚ)), .num (.fin (((p - 1) * l : ℕ) : ℚ))] ∧
    getTransactions rows user q =
      ⟨⟨200, .listing
          ((((rows.filter (matchesFilters user.id q)).insertionSort newestFirst).drop
            ((p - 1) * l)).take l)
          { page := .fin (p : ℚ)
            limit := .fin (l : ℚ)
            total := (rows.filter (matchesFilters user.id q)).length
            pages := .fin ((⌈((rows.filter (matchesFilters user.id q)).length : ℚ) /
              (l : ℚ)⌉ : ℤ) : ℚ) }⟩, rows, [.all, .get]⟩ ∧
    (p = 2 → l = 10 → (rows.filter (matchesFilters user.id q)).length = 25 →
      (p - 1) * l = 10 ∧
      ((((rows.filter (matchesFilters user.id q)).insertionSort newestFirst).drop
        ((p - 1) * l)).take l).length = 10 ∧
      (∀ i, i < 10 →
        ((((rows.filter (matchesFilters user.id q)).insertionSort newestFirst).drop
          ((p - 1) * l)).take l).get? i =
        ((rows.filter (matchesFilters user.id q)).insertionSort newestFirst).get? (10 + i)) ∧
      (⌈((rows.filter (matchesFilters user.id q)).length : ℚ) / (l : ℚ)⌉ : ℤ) = 3) := by
  refine ⟨listQuery_paging_params user.id q p l hp hpage hlimit,
    getTransactions_of_nat rows user q p l hp hl hpage hlimit, ?_⟩
  · rintro rfl rfl h25
    have hlen : ((rows.filter (matchesFilters user.id q)).insertionSort newestFirst).length =
        25 := by rw [List.length_insertionSort, h25]
    refine ⟨rfl, ?_, ?_, ?_⟩
    · simp [hlen]
    · intro i hi
      simp only [List.get?_eq_getElem?, List.getElem?_take, List.getElem?_drop]
      simp [hi]
    · rw [h25, Int.ceil_eq_iff]
      norm_num

/-- C7, on 25 rows of one user: `page=2&limit=10` gives the rows numbered 11 to 20 of the
ordering (newest first) and 3 pages. -/
theorem pagination_one_indexed_witness :
    getTransactions (sampleRows 25) sampleUser { noQuery with page := some "2", limit := some "10" } =
      ⟨⟨200, .listing (((sampleRows 25).reverse.drop 10).take 10) ⟨.fin 2, .fin 10, 25, .fin 3⟩⟩,
        sampleRows 25, [.all, .get]⟩ :=
  (pagination_one_indexed (sampleRows 25) sampleUser
    { noQuery with page := some "2", limit := some "10" } 2 10 (by decide) (by decide)
    (Or.inl (by decide!)) (Or.inl (by decide!))).2.1.trans (by decide!)

/-! ## The unfiltered list -/

theorem newestFirst_total (a b : Transaction) : newestFirst a b ∨ newestFirst b a := by
  unfold newestFirst
  rcases lt_trichotomy a.date b.date with h | h | h
  · right; left; exact h
  · rcases Nat.le_total a.created_at b.created_at with h2 | h2
    · right; right; exact ⟨h, h2⟩
    · left; right; exact ⟨h.symm, h2⟩
  · left; left; exact h

theorem newestFirst_trans (a b c : Transaction) (h1 : newestFirst a b) (h2 : newestFirst b c) :
    newestFirst a c := by
  unfold newestFirst at *
  rcases h1 with h1 | ⟨h1, h1'⟩ <;> rcases h2 with h2 | ⟨h2, h2'⟩
  · left; exact lt_trans h2 h1
  · left; rw [h2]; exact h1
  · left; rw [← h1]; exact h2
  · right; exact ⟨h2.trans h1, le_trans h2' h1'⟩

theorem sorted_insertionSort_newestFirst (l : List Transaction) :
    (l.insertionSort newestFirst).Sorted newestFirst := by
  haveI : IsTotal Transaction newestFirst := ⟨newestFirst_total⟩
  haveI : IsTrans Transaction newestFirst := ⟨newestFirst_trans⟩
  exact List.sorted_insertionSort newestFirst l

theorem matchesFilters_of_no_filter (userId : Nat) (q : ListQuery)
    (h : q.type = none ∧ q.category = none ∧ q.startDate = none ∧ q.endDate = none)
    (r : Transaction) : matchesFilters userId q r = decide (r.user_id = userId) := by
  obtain ⟨h1, h2, h3, h4⟩ := h
  simp [matchesFilters, filterHolds, h1, h2, h3, h4]

/-- C8 as stated fails: user 1 owns eleven rows and sends no filter and no page or limit; the
response lists ten rows, not the oldest one, while `total` is 11. -/
theorem unfiltered_list_is_one_page :
    (∀ r ∈ sampleRows 11, r.user_id = sampleUser.id) ∧
    getTransactions (sampleRows 11) sampleUser noQuery =
      ⟨⟨200, .listing ((sampleRows 11).reverse.take 10) ⟨.fin 1, .fin 10, 11, .fin 2⟩⟩,
        sampleRows 11, [.all, .get]⟩ ∧
    ((sampleRows 11).reverse.take 10).length = 10 ∧
    sampleRow 0 ∈ sampleRows 11 ∧
    sampleRow 0 ∉ (sampleRows 11).reverse.take 10 := by
  decide!

/-- C8, amended: without filters `getTransactions` lists rows of the caller only, ordered by date
descending and then by `created_at` descending: the page of at most `limit` rows at offset
`(page - 1) * limit` of the caller's rows in that order (page 1 and limit 10 when not sent).
`total` is the number of all rows of the caller.  When the caller has at most `limit` rows and
the page is 1, the rows listed are exactly the caller's rows and their number is `total`. -/
theorem unfiltered_list_own_rows_page (rows : List Transaction) (user : Claims) (q : ListQuery)
    (p l : Nat) (hp : 0 < p) (hl : 0 < l)
    (hpage : q.page = some (toString p) ∨ (q.page = none ∧ p = 1))
    (hlimit : q.limit = some (toString l) ∨ (q.limit = none ∧ l = 10))
    (hq : q.type = none ∧ q.category = none ∧ q.startDate = none ∧ q.endDate = none) :
    ∃ ts pg, (getTransactions rows user q).response = ⟨200, .listing ts pg⟩ ∧
      ts = (((rows.filter (fun r => decide (r.user_id = user.id))).insertionSort
        newestFirst).drop ((p - 1) * l)).take l ∧
      (∀ r ∈ ts, r ∈ rows ∧ r.user_id = user.id) ∧
      ts.Sorted newestFirst ∧
      ts.length ≤ l ∧
      pg.total = (rows.filter (fun r => decide (r.user_id = user.id))).length ∧
      (p = 1 → (rows.filter (fun r => decide (r.user_id = user.id))).length ≤ l →
        ts.Perm (rows.filter (fun r => decide (r.user_id = user.id))) ∧
        ts.length = pg.total) := by
  have hf : rows.filter (matchesFilters user.id q) =
      rows.filter (fun r => decide (r.user_id = user.id)) :=
    List.filter_congr (fun r _ => matchesFilters_of_no_filter user.id q hq r)
  have hsub : ((((rows.filter (fun r => decide (r.user_id = user.id))).insertionSort
      newestFirst).drop ((p - 1) * l)).take l).Sublist
      ((rows.filter (fun r => decide (r.user_id = user.id))).insertionSort newestFirst) :=
    (List.take_sublist _ _).trans (List.drop_sublist _ _)
  refine ⟨_, _, by rw [getTransactions_of_nat rows user q p l hp hl hpage hlimit], ?_, ?_, ?_, ?_,
    ?_, ?_⟩
  · rw [hf]
  · intro r hr
    rw [hf] at hr
    have h1 := (List.perm_insertionSort newestFirst _).subset (hsub.subset hr)
    have h2 := List.mem_filter.mp h1
    exact ⟨h2.1, by simpa using h2.2⟩
  · rw [hf]
    exact (sorted_insertionSort_newestFirst _).sublist hsub
  · exact (List.length_take_le _ _)
  · simp only [hf]
  · rintro rfl hle
    simp only [hf]
    have hlen : ((rows.filter (fun r => decide (r.user_id = user.id))).insertionSort
        newestFirst).length ≤ l := by
      rw [List.length_insertionSort]; exact hle
    simp only [Nat.sub_self, Nat.zero_mul, List.drop_zero, List.take_of_length_le hlen]
    exact ⟨List.perm_insertionSort newestFirst _, List.length_insertionSort _ _⟩

/-- C8, amended, on the eleven sample rows with `limit=20`: all eleven are listed. -/
theorem unfiltered_list_own_rows_page_witness :
    ∃ ts pg, (getTransactions (sampleRows 11) sampleUser { noQuery with limit := some "20" }).response =
        ⟨200, .listing ts pg⟩ ∧
      ts.Perm ((sampleRows 11).filter (fun r => decide (r.user_id = sampleUser.id))) ∧
      ts.length = pg.total :=
  have ⟨ts, pg, h1, _, _, _, _, _, h7⟩ :=
    unfiltered_list_own_rows_page (sampleRows 11) sampleUser { noQuery with limit := some "20" }
      1 20 (by decide) (by decide) (Or.inr ⟨rfl, rfl⟩) (Or.inl (by decide!)) ⟨rfl, rfl, rfl, rfl⟩
  ⟨ts, pg, h1, h7 rfl (by decide!)⟩

/-! ## Page and limit values -/

/-- C9 as stated fails: `limit=0` is neither rejected nor replaced by a default.  The request
succeeds with status 200, `LIMIT 0 OFFSET 0` is what the engine receives, no row is listed, and
the metadata echo `limit = 0` with `pages = Infinity`.  With `limit=-5` the engine receives
`LIMIT -5`, which it reads as no limit, and the metadata echo `limit = -5`. -/
theorem zero_limit_reaches_storage :
    (listQuery sampleUser.id { noQuery with limit := some "0" }).2 =
      [.num (.fin 1), .num (.fin 0), .num (.fin 0)] ∧
    getTransactions (sampleRows 3) sampleUser { noQuery with limit := some "0" } =
      ⟨⟨200, .listing [] ⟨.fin 1, .fin 0, 3, .posInf⟩⟩, sampleRows 3, [.all, .get]⟩ ∧
    (listQuery sampleUser.id { noQuery with limit := some "-5" }).2 =
      [.num (.fin 1), .num (.fin (-5)), .num (.fin 0)] ∧
    getTransactions (sampleRows 3) sampleUser { noQuery with limit := some "-5" } =
      ⟨⟨200, .listing (sampleRows 3).reverse ⟨.fin 1, .fin (-5), 3, .fin 0⟩⟩, sampleRows 3,
        [.all, .get]⟩ := by
  decide!

/-- C9, amended: when `page` and `limit` are each left out (then 1 and 10) or sent as a positive
integer in decimal, the `LIMIT` and `OFFSET` the engine receives are integers with `LIMIT ≥ 1`
and `OFFSET ≥ 0`, the request succeeds, and the `page` and `limit` echoed in the metadata are
those positive integers. -/
theorem positive_paging_values (rows : List Transaction) (user : Claims) (q : ListQuery)
    (p l : Nat) (hp : 0 < p) (hl : 0 < l)
    (hpage : q.page = some (toString p) ∨ (q.page = none ∧ p = 1))
    (hlimit : q.limit = some (toString l) ∨ (q.limit = none ∧ l = 10)) :
    ∃ (limit offset : Int) (ts : List Transaction) (pg : Pagination),
      (listQuery user.id q).2.drop ((listQuery user.id q).2.length - 2) =
        [.num (.fin (limit : ℚ)), .num (.fin (offset : ℚ))] ∧
      1 ≤ limit ∧ 0 ≤ offset ∧
      (getTransactions rows user q).response = ⟨200, .listing ts pg⟩ ∧
      pg.page = .fin (p : ℚ) ∧ pg.limit = .fin (l : ℚ) ∧ limit = l ∧ offset = (p - 1) * l := by
  refine ⟨(l : Int), (((p - 1) * l : ℕ) : Int), _, _, ?_, by exact_mod_cast hl,
    Int.natCast_nonneg _, by rw [getTransactions_of_nat rows user q p l hp hl hpage hlimit],
    rfl, rfl, rfl, ?_⟩
  · rw [listQuery_paging_params user.id q p l hp hpage hlimit]
    simp
  · have : 1 ≤ p := hp
    push_cast [Nat.cast_sub this]
    ring

/-- C9, amended, on a sample request: `page=3&limit=4` is run as `LIMIT 4 OFFSET 8`. -/
theorem positive_paging_values_witness :
    ∃ (limit offset : Int) (ts : List Transaction) (pg : Pagination),
      (listQuery sampleUser.id { noQuery with page := some "3", limit := some "4" }).2.drop
          ((listQuery sampleUser.id { noQuery with page := some "3", limit := some "4" }).2.length
            - 2) =
        [.num (.fin (limit : ℚ)), .num (.fin (offset : ℚ))] ∧
      1 ≤ limit ∧ 0 ≤ offset ∧
      (getTransactions (sampleRows 11) sampleUser
        { noQuery with page := some "3", limit := some "4" }).response = ⟨200, .listing ts pg⟩ ∧
      pg.page = .fin ((3 : ℕ) : ℚ) ∧ pg.limit = .fin ((4 : ℕ) : ℚ) ∧ limit = (4 : ℕ) ∧
      offset = ((3 : ℕ) - 1) * (4 : ℕ) :=
  positive_paging_values (sampleRows 11) sampleUser
    { noQuery with page := some "3", limit := some "4" } 3 4 (by decide) (by decide)
    (Or.inl (by decide!)) (Or.inl (by decide!))

/-! ## Statistics -/

theorem sum_map_ite_eq_sum_filter (l : List Transaction) (P : Transaction → Prop)
    [DecidablePred P] :
    (l.map (fun r => if P r then r.amount else 0)).sum =
      ((l.filter (fun r => decide (P r))).map (fun r => r.amount)).sum := by
  induction l with
  | nil => rfl
  | cons a l ih =>
    by_cases h : P a
    · simp [List.filter_cons, h, ih]
    · simp [List.filter_cons, h, ih]

theorem length_filterMap_ite (l : List Transaction) (P : Transaction → Prop)
    [DecidablePred P] :
    (l.filterMap (fun r => if P r then some 1 else none)).length =
      (l.filter (fun r => decide (P r))).length := by
  induction l with
  | nil => rfl
  | cons a l ih =>
    by_cases h : P a
    · simp [List.filterMap_cons, List.filter_cons, h, ih]
    · simp [List.filterMap_cons, List.filter_cons, h, ih]

theorem windowRows_filter (rows : List Transaction) (today : Int) (days : Nat) (userId : Nat)
    (type : String) :
    (windowRows rows today days (.num (.fin userId))).filter (fun r => decide (r.type = type)) =
      rows.filter (fun r => decide (r.user_id = userId) && decide (r.type = type) &&
        decide (isoDate (today - days) ≤ r.date)) := by
  unfold windowRows
  rw [List.filter_filter]
  apply List.filter_congr
  intro r _
  have h0 : intEquals r.user_id (.num (.fin userId)) = decide (r.user_id = userId) := by
    simp [intEquals]
  rw [h0]
  cases decide (r.user_id = userId) <;> cases decide (r.type = type) <;>
    cases decide (isoDate (today - days) ≤ r.date) <;> rfl

/-- C2 as stated fails: a revenue dated tomorrow lies outside the trailing 30 days, so the sum
over the trailing window is 0, and `getTransactionStats` with `period=month` reports it in
`total_revenue`, `revenue_count` and `net_income`. -/
theorem future_row_counted_in_window :
    inTrailingWindow fixtureToday 30 tomorrowRow.date = false ∧
    trailingTotal [tomorrowRow] fixtureToday 30 sampleUser.id "revenue" = 0 ∧
    getTransactionStats [tomorrowRow] fixtureToday sampleUser (some "month") =
      ⟨⟨200, .statistics "month" ⟨100, 0, 1, 0, 100, 100⟩ [⟨"misc", "revenue", 100, 1⟩]⟩,
        [tomorrowRow], [.get, .all, .get]⟩ := by
  decide!

/-- C2, amended: the window of `getTransactionStats` has a lower bound only.  For period `week`,
`month`, `year` it keeps the rows dated on or after the day 7, 30, 365 days before today, and
for every other period value the day 30 days before today; rows dated later than today are
kept.  `total_revenue` and `total_expense` are the sums of the amounts of the caller's revenue
and expense rows so kept, `revenue_count` and `expense_count` their numbers, and
`net_income = total_revenue - total_expense`.  On the fixture with `period=month` this gives
`total_revenue = 1000`, `total_expense = 300`, `net_income = 700`. -/
theorem stats_window_has_lower_bound_only (rows : List Transaction) (today : Int)
    (user : Claims) (period : Option String) :
    (∃ s cat, (getTransactionStats rows today user period).response =
        ⟨200, .statistics (period.getD "month") s cat⟩ ∧
      s.total_revenue = ((rows.filter (fun r => decide (r.user_id = user.id) &&
        decide (r.type = "revenue") &&
        decide (isoDate (today - dateFilter (period.getD "month")) ≤ r.date))).map
          (fun r => r.amount)).sum ∧
      s.total_expense = ((rows.filter (fun r => decide (r.user_id = user.id) &&
        decide (r.type = "expense") &&
        decide (isoDate (today - dateFilter (period.getD "month")) ≤ r.date))).map
          (fun r => r.amount)).sum ∧
      s.revenue_count = (rows.filter (fun r => decide (r.user_id = user.id) &&
        decide (r.type = "revenue") &&
        decide (isoDate (today - dateFilter (period.getD "month")) ≤ r.date))).length ∧
      s.expense_count = (rows.filter (fun r => decide (r.user_id = user.id) &&
        decide (r.type = "expense") &&
        decide (isoDate (today - dateFilter (period.getD "month")) ≤ r.date))).length ∧
      s.net_income = s.total_revenue - s.total_expense) ∧
    (dateFilter "week" = 7 ∧ dateFilter "month" = 30 ∧ dateFilter "year" = 365 ∧
      ∀ other : String, other ≠ "week" → other ≠ "month" → other ≠ "year" →
        dateFilter other = 30) ∧
    getTransactionStats fixtureRows fixtureToday sampleUser (some "month") =
      ⟨⟨200, .statistics "month" ⟨1000, 300, 1, 1, 650, 700⟩
          [⟨"work", "revenue", 1000, 1⟩, ⟨"home", "expense", 300, 1⟩]⟩,
        fixtureRows, [.get, .all, .get]⟩ := by
  refine ⟨⟨_, _, rfl, ?_, ?_, ?_, ?_, rfl⟩, ⟨rfl, rfl, rfl, ?_⟩, by decide!⟩
  · simp only [statsQuery]
    rw [sum_map_ite_eq_sum_filter, windowRows_filter]
  · simp only [statsQuery]
    rw [sum_map_ite_eq_sum_filter, windowRows_filter]
  · simp only [statsQuery]
    rw [length_filterMap_ite, windowRows_filter]
  · simp only [statsQuery]
    rw [length_filterMap_ite, windowRows_filter]
  · intro other h1 h2 h3
    simp [dateFilter, h1, h2, h3]

theorem sum_signed_eq_sub (l : List Transaction)
    (h : ∀ r ∈ l, r.type = "expense" ∨ r.type = "revenue") :
    (l.map (fun r => if r.type = "revenue" then r.amount else -r.amount)).sum =
      ((l.filter (fun r => decide (r.type = "revenue"))).map (fun r => r.amount)).sum -
      ((l.filter (fun r => decide (r.type = "expense"))).map (fun r => r.amount)).sum := by
  induction l with
  | nil => simp
  | cons a l ih =>
    have ih' := ih (fun r hr => h r (List.mem_cons_of_mem _ hr))
    rcases h a (List.mem_cons_self _ _) with ha | ha
    · have hne : ¬ a.type = "revenue" := by rw [ha]; decide
      simp only [List.map_cons, List.sum_cons, List.filter_cons, ha, hne, if_false,
        decide_True, decide_False, if_true, Bool.false_eq_true] at ih' ⊢
      rw [ih']
      simp [ha]
      ring
    · have hne : ¬ a.type = "expense" := by rw [ha]; decide
      simp only [List.map_cons, List.sum_cons, List.filter_cons, ha, hne, if_false,
        decide_True, decide_False, if_true, Bool.false_eq_true] at ih' ⊢
      rw [ih']
      simp [ha]
      ring

theorem balanceQuery_eq (rows : List Transaction) (userId : Nat)
    (h : ∀ r ∈ rows, r.user_id = userId → r.type = "expense" ∨ r.type = "revenue") :
    balanceQuery rows (.num (.fin userId)) =
      ((rows.filter (fun r => decide (r.user_id = userId) &&
        decide (r.type = "revenue"))).map (fun r => r.amount)).sum -
      ((rows.filter (fun r => decide (r.user_id = userId) &&
        decide (r.type = "expense"))).map (fun r => r.amount)).sum := by
  have h0 : rows.filter (fun r => intEquals r.user_id (.num (.fin userId))) =
      rows.filter (fun r => decide (r.user_id = userId)) :=
    List.filter_congr (fun r _ => by simp [intEquals])
  unfold balanceQuery
  rw [h0, sum_signed_eq_sub, List.filter_filter, List.filter_filter]
  · congr 3
    · exact List.filter_congr (fun r _ => Bool.and_comm _ _)
    · exact List.filter_congr (fun r _ => Bool.and_comm _ _)
  · intro r hr
    have := List.mem_filter.mp hr
    exact h r this.1 (by simpa using this.2)

theorem balanceQuery_append_others (rows others : List Transaction) (userId : Nat)
    (h : ∀ r ∈ others, r.user_id ≠ userId) :
    balanceQuery (rows ++ others) (.num (.fin userId)) = balanceQuery rows (.num (.fin userId)) := by
  have h0 : others.filter (fun r => intEquals r.user_id (.num (.fin userId))) = [] :=
    List.filter_eq_nil_iff.mpr (fun r hr => by simpa [intEquals] using h r hr)
  unfold balanceQuery
  rw [List.filter_append, h0, List.append_nil]

/-- C3: the balance reported by `getTransactionStats` is not windowed.  When each row of the
caller is an expense or a revenue, it is the sum of all the caller's revenue amounts minus the
sum of all the caller's expense amounts, whatever the period and the day of the request, and
rows of other users do not count.  On the fixture it is 650 with `period=month`, while the month
totals leave out the expense of 50 (`total_expense = 300`). -/
theorem balance_is_all_time (rows : List Transaction) (today : Int) (user : Claims)
    (period : Option String)
    (htype : ∀ r ∈ rows, r.user_id = user.id → r.type = "expense" ∨ r.type = "revenue") :
    (∃ s cat, (getTransactionStats rows today user period).response =
        ⟨200, .statistics (period.getD "month") s cat⟩ ∧
      s.balance =
        ((rows.filter (fun r => decide (r.user_id = user.id) &&
          decide (r.type = "revenue"))).map (fun r => r.amount)).sum -
        ((rows.filter (fun r => decide (r.user_id = user.id) &&
          decide (r.type = "expense"))).map (fun r => r.amount)).sum ∧
      (∀ (today2 : Int) (period2 : Option String), ∃ s2 cat2,
        (getTransactionStats rows today2 user period2).response =
          ⟨200, .statistics (period2.getD "month") s2 cat2⟩ ∧ s2.balance = s.balance) ∧
      (∀ others : List Transaction, (∀ r ∈ others, r.user_id ≠ user.id) →
        ∃ s3 cat3, (getTransactionStats (rows ++ others) today user period).response =
          ⟨200, .statistics (period.getD "month") s3 cat3⟩ ∧ s3.balance = s.balance)) ∧
    getTransactionStats fixtureRows fixtureToday sampleUser (some "month") =
      ⟨⟨200, .statistics "month" ⟨1000, 300, 1, 1, 650, 700⟩
          [⟨"work", "revenue", 1000, 1⟩, ⟨"home", "expense", 300, 1⟩]⟩,
        fixtureRows, [.get, .all, .get]⟩ ∧
    ((fixtureRows.filter (fun r => decide (r.type = "expense"))).map (fun r => r.amount)).sum =
      350 := by
  refine ⟨⟨_, _, rfl, balanceQuery_eq rows user.id htype, ?_, ?_⟩, by decide!, by decide!⟩
  · intro today2 period2
    exact ⟨_, _, rfl, rfl⟩
  · intro others hothers
    exact ⟨_, _, rfl, balanceQuery_append_others rows others user.id hothers⟩

/-- C3, on the fixture: the balance is 1000 - (300 + 50) for `period=week` as well. -/
theorem balance_is_all_time_witness :
    ∃ s cat, (getTransactionStats fixtureRows fixtureToday sampleUser (some "week")).response =
        ⟨200, .statistics "week" s cat⟩ ∧
      s.balance =
        ((fixtureRows.filter (fun r => decide (r.user_id = sampleUser.id) &&
          decide (r.type = "revenue"))).map (fun r => r.amount)).sum -
        ((fixtureRows.filter (fun r => decide (r.user_id = sampleUser.id) &&
          decide (r.type = "expense"))).map (fun r => r.amount)).sum ∧
      s.balance = 650 :=
  have ⟨⟨s, cat, h1, h2, _, _⟩, _, _⟩ :=
    balance_is_all_time fixtureRows fixtureToday sampleUser (some "week") (by decide!)
  ⟨s, cat, h1, h2, by rw [h2]; decide!⟩

/-! ## Token lifetime -/

theorem ms_default : ms "24h" = some ((86400 : ℚ) * 1000) := by
  decide!

theorem expiry_of_span (issued T : Nat) :
    (⌊(issued : ℚ) + ((T : ℚ) * 1000) / 1000⌋).toNat = issued + T := by
  have h : (issued : ℚ) + ((T : ℚ) * 1000) / 1000 = ((issued + T : ℕ) : ℚ) := by
    push_cast
    ring
  rw [h, Int.floor_natCast]
  omega

theorem generateToken_of_span (lib : Libraries) (env : ProcessEnv) (payload : UserSummary)
    (issued T : Nat)
    (hT : ms (if truthy env.JWT_EXPIRES_IN then fieldText env.JWT_EXPIRES_IN else "24h") =
      some ((T : ℚ) * 1000)) :
    generateToken lib env issued payload =
      .ok (lib.jwtEncode (JWT_SECRET env)
        ⟨payload.id, payload.email, payload.name, payload.firstname, issued, issued + T⟩) := by
  unfold generateToken jwtSign
  rw [hT]
  simp only [expiry_of_span]

theorem verifyToken_of_decoded (lib : Libraries) (env : ProcessEnv) (token : String)
    (claims : Claims) (t : Nat) (h : lib.jwtDecode (JWT_SECRET env) token = some claims) :
    verifyToken lib env t token =
      if claims.exp ≤ t then .error ⟨"TokenExpiredError", "jwt expired"⟩ else .ok claims := by
  unfold verifyToken jwtVerify
  rw [h]

theorem authenticateToken_of_token (verify : String → Except JwtError Claims) (x : Exchange)
    (token : String) (hheader : headerToken x.authorization = some token) (hne : token ≠ "") :
    authenticateToken verify x =
      match verify token with
      | .ok decoded => { x with user := some decoded, nextCalls := x.nextCalls + 1 }
      | .error error =>
        if error.name = "TokenExpiredError" then
          { x with response := some ⟨401, .message "Token expired. Please log in again."⟩ }
        else
          { x with response := some ⟨403, .message "Invalid token."⟩ } := by
  unfold authenticateToken
  rw [hheader]
  simp only [hne, if_false]

/-- C12: a token produced by `generateToken` at time `issued` with a time span of `T` seconds
(24 hours when `JWT_EXPIRES_IN` is not set) carries the expiry `issued + T`.  Read back under
the same secret, it is accepted by `verifyToken` and by `authenticateToken` at every time `t`
with `issued ≤ t < issued + T`, and at every time `t ≥ issued + T` it is rejected with the
expired kind: `authenticateToken` answers 401 "Token expired", not 403. -/
theorem token_valid_until_expiry (lib : Libraries) (env : ProcessEnv) (payload : UserSummary)
    (issued T : Nat) (x : Exchange)
    (hT : ms (if truthy env.JWT_EXPIRES_IN then fieldText env.JWT_EXPIRES_IN else "24h") =
      some ((T : ℚ) * 1000))
    (hcodec : lib.jwtDecode (JWT_SECRET env) (lib.jwtEncode (JWT_SECRET env)
        ⟨payload.id, payload.email, payload.name, payload.firstname, issued, issued + T⟩) =
      some ⟨payload.id, payload.email, payload.name, payload.firstname, issued, issued + T⟩)
    (hheader : headerToken x.authorization = some (lib.jwtEncode (JWT_SECRET env)
        ⟨payload.id, payload.email, payload.name, payload.firstname, issued, issued + T⟩))
    (hne : lib.jwtEncode (JWT_SECRET env)
        ⟨payload.id, payload.email, payload.name, payload.firstname, issued, issued + T⟩ ≠ "") :
    generateToken lib env issued payload =
      .ok (lib.jwtEncode (JWT_SECRET env)
        ⟨payload.id, payload.email, payload.name, payload.firstname, issued, issued + T⟩) ∧
    (truthy env.JWT_EXPIRES_IN = false → T = 86400) ∧
    (∀ t, issued ≤ t → t < issued + T →
      verifyToken lib env t (lib.jwtEncode (JWT_SECRET env)
          ⟨payload.id, payload.email, payload.name, payload.firstname, issued, issued + T⟩) =
        .ok ⟨payload.id, payload.email, payload.name, payload.firstname, issued, issued + T⟩ ∧
      authenticateToken (verifyToken lib env t) x =
        { x with
          user := some ⟨payload.id, payload.email, payload.name, payload.firstname, issued,
            issued + T⟩
          nextCalls := x.nextCalls + 1 }) ∧
    (∀ t, issued + T ≤ t →
      verifyToken lib env t (lib.jwtEncode (JWT_SECRET env)
          ⟨payload.id, payload.email, payload.name, payload.firstname, issued, issued + T⟩) =
        .error ⟨"TokenExpiredError", "jwt expired"⟩ ∧
      authenticateToken (verifyToken lib env t) x =
        { x with response := some ⟨401, .message "Token expired. Please log in again."⟩ }) := by
  refine ⟨generateToken_of_span lib env payload issued T hT, ?_, ?_, ?_⟩
  · intro hnone
    rw [hnone] at hT
    simp only [Bool.false_eq_true, if_false] at hT
    rw [ms_default] at hT
    have h := Option.some.inj hT
    have h2 : (86400 : ℚ) = (T : ℚ) := by linarith
    exact_mod_cast h2.symm
  · intro t _ hlt
    have hv := verifyToken_of_decoded lib env _ _ t hcodec
    rw [if_neg (by simpa using hlt)] at hv
    refine ⟨hv, ?_⟩
    rw [authenticateToken_of_token _ x _ hheader hne, hv]
  · intro t hle
    have hv := verifyToken_of_decoded lib env _ _ t hcodec
    rw [if_pos (by simpa using hle)] at hv
    refine ⟨hv, ?_⟩
    rw [authenticateToken_of_token _ x _ hheader hne, hv]
    simp

/-- C12, on a sample token issued at 1710000000 without a configured time span: accepted one
second before 24 hours have passed, expired from then on. -/
theorem token_valid_until_expiry_witness :
    generateToken sampleLib sampleEnv 1710000000 ⟨1, "Doe", "Ann", "ann@example.org"⟩ =
      .ok (sampleLib.jwtEncode (JWT_SECRET sampleEnv) sampleUser) ∧
    sampleLib.jwtEncode (JWT_SECRET sampleEnv) sampleUser =
      "1.ann@example.org.1710000000.1710086400.your-secret-key-change-this-in-production" ∧
    sampleUser.exp = 1710000000 + 86400 ∧
    verifyToken sampleLib sampleEnv 1710086399
        (sampleLib.jwtEncode (JWT_SECRET sampleEnv) sampleUser) = .ok sampleUser ∧
    verifyToken sampleLib sampleEnv 1710086400
        (sampleLib.jwtEncode (JWT_SECRET sampleEnv) sampleUser) =
      .error ⟨"TokenExpiredError", "jwt expired"⟩ ∧
    authenticateToken (verifyToken sampleLib sampleEnv 1710086400)
        ⟨some "Bearer 1.ann@example.org.1710000000.1710086400.your-secret-key-change-this-in-production",
          none, none, 0⟩ =
      ⟨some "Bearer 1.ann@example.org.1710000000.1710086400.your-secret-key-change-this-in-production",
        none, some ⟨401, .message "Token expired. Please log in again."⟩, 0⟩ :=
  have h := token_valid_until_expiry sampleLib sampleEnv ⟨1, "Doe", "Ann", "ann@example.org"⟩
    1710000000 86400
    ⟨some "Bearer 1.ann@example.org.1710000000.1710086400.your-secret-key-change-this-in-production",
      none, none, 0⟩
    (by decide!) (by decide!) (by decide!) (by decide!)
  ⟨h.1, by decide!, by decide!, (h.2.2.1 1710086399 (by decide) (by decide)).1,
    (h.2.2.2 1710086400 (by decide)).1, (h.2.2.2 1710086400 (by decide)).2⟩

/-! ## Login -/

theorem getUserByEmail_of_unknown (users : List User) (email : String)
    (h : ∀ u ∈ users, u.email ≠ email) : getUserByEmail users (.text email) = none := by
  unfold getUserByEmail
  simp only [List.find?_eq_none, decide_eq_true_eq]
  exact fun u hu => h u hu

theorem getUserByEmail_of_known (users : List User) (u : User)
    (hkey : (users.map (fun v => v.email)).Nodup) (hu : u ∈ users) :
    getUserByEmail users (.text u.email) = some u := by
  unfold getUserByEmail
  simp only []
  cases hf : users.find? (fun v => decide (v.email = u.email)) with
  | none =>
    have := List.find?_eq_none.mp hf u hu
    simp at this
  | some v =>
    have hv := List.mem_of_find?_eq_some hf
    have he : v.email = u.email := by simpa using List.find?_some hf
    rw [List.inj_on_of_nodup_map hkey hv hu he]

theorem login_of_valid (lib : Libraries) (env : ProcessEnv) (users : List User) (now : Nat)
    (body : AuthBody) (hv : loginValidation lib body = []) :
    login lib env users now body =
      match getUserByEmail users (.text (lib.normalizeEmail (fieldText body.email))) with
      | none => ⟨⟨401, .message "Invalid email or password"⟩, users, [.get]⟩
      | some user =>
        if lib.bcryptCompare (fieldText body.password) user.password then
          match generateToken lib env now ⟨user.id, user.name, user.firstname, user.email⟩ with
          | .error error =>
            ⟨⟨500, .failure "Server error during login" error.message⟩, users, [.get]⟩
          | .ok token =>
            ⟨⟨200, .session "Login successful" token
                ⟨user.id, user.name, user.firstname, user.email⟩⟩, users, [.get]⟩
        else ⟨⟨401, .message "Invalid email or password"⟩, users, [.get]⟩ := by
  unfold login
  rw [hv]
  simp only [ne_eq, not_true_eq_false, if_false]
  rfl

/-- C15: let two login requests pass `loginValidation`, the email of the first matching no user
and the email of the second matching a user whose stored hash `bcrypt.compare` rejects for the
password sent.  Then `login` answers both with the same response, status 401 and the body
`Invalid email or password`, and leaves the table alone.  For one and the same body, valid or
not, the response on a table without the email and the response on a table with the email and
a password that does not verify are equal. -/
theorem login_unknown_email_same_as_wrong_password (lib : Libraries) (env : ProcessEnv)
    (users1 users2 : List User) (now1 now2 : Nat) (body1 body2 : AuthBody) (u : User)
    (hv1 : loginValidation lib body1 = []) (hv2 : loginValidation lib body2 = [])
    (hunknown : ∀ v ∈ users1, v.email ≠ lib.normalizeEmail (fieldText body1.email))
    (hkey : (users2.map (fun v => v.email)).Nodup) (hu : u ∈ users2)
    (hknown : u.email = lib.normalizeEmail (fieldText body2.email))
    (hwrong : lib.bcryptCompare (fieldText body2.password) u.password = false) :
    (login lib env users1 now1 body1).response = ⟨401, .message "Invalid email or password"⟩ ∧
    (login lib env users2 now2 body2).response = ⟨401, .message "Invalid email or password"⟩ ∧
    (login lib env users1 now1 body1).response = (login lib env users2 now2 body2).response ∧
    (login lib env users1 now1 body1).users = users1 ∧
    (login lib env users2 now2 body2).users = users2 ∧
    (∀ (body : AuthBody) (tableA tableB : List User) (w : User),
      (∀ v ∈ tableA, v.email ≠ lib.normalizeEmail (fieldText body.email)) →
      (tableB.map (fun v => v.email)).Nodup → w ∈ tableB →
      w.email = lib.normalizeEmail (fieldText body.email) →
      lib.bcryptCompare (fieldText body.password) w.password = false →
      (login lib env tableA now1 body).response = (login lib env tableB now2 body).response) := by
  have r1 : login lib env users1 now1 body1 =
      ⟨⟨401, .message "Invalid email or password"⟩, users1, [.get]⟩ := by
    rw [login_of_valid lib env users1 now1 body1 hv1, getUserByEmail_of_unknown users1 _ hunknown]
  have r2 : login lib env users2 now2 body2 =
      ⟨⟨401, .message "Invalid email or password"⟩, users2, [.get]⟩ := by
    rw [login_of_valid lib env users2 now2 body2 hv2, ← hknown,
      getUserByEmail_of_known users2 u hkey hu]
    simp only [hwrong, Bool.false_eq_true, if_false]
  refine ⟨by rw [r1], by rw [r2], by rw [r1, r2], by rw [r1], by rw [r2], ?_⟩
  intro body tableA tableB w hA hB hw hwe hwc
  by_cases hv : loginValidation lib body = []
  · rw [login_of_valid lib env tableA now1 body hv, login_of_valid lib env tableB now2 body hv,
      getUserByEmail_of_unknown tableA _ hA, ← hwe, getUserByEmail_of_known tableB w hB hw]
    simp only [hwc, Bool.false_eq_true, if_false]
  · unfold login
    simp only [ne_eq, hv, not_false_eq_true, if_true]

/-- C15, on the sample table: an unknown email and Ann's email with a wrong password get the
same 401. -/
theorem login_unknown_email_same_as_wrong_password_witness :
    (login sampleLib sampleEnv sampleUsers 1710000000
      ⟨none, none, some "nobody@example.org", some "Secret1x"⟩).response =
      ⟨401, .message "Invalid email or password"⟩ ∧
    (login sampleLib sampleEnv sampleUsers 1710000000
      ⟨none, none, some "Ann@Example.org", some "Wrong1xx"⟩).response =
      ⟨401, .message "Invalid email or password"⟩ :=
  have h := login_unknown_email_same_as_wrong_password sampleLib sampleEnv sampleUsers
    sampleUsers 1710000000 1710000000 ⟨none, none, some "nobody@example.org", some "Secret1x"⟩
    ⟨none, none, some "Ann@Example.org", some "Wrong1xx"⟩
    ⟨1, "Doe", "Ann", "ann@example.org", "$2a$12$saltsaltSecret1x", 1709000000, 1709000000⟩
    (by decide!) (by decide!) (by decide!) (by decide!) (by decide!) (by decide!) (by decide!)
  ⟨h.1, h.2.1⟩

/-- With the right password the same table logs Ann in. -/
theorem login_accepts_registered_password :
    (login sampleLib sampleEnv sampleUsers 1710000000
      ⟨none, none, some "ann@example.org", some "Secret1x"⟩).response =
      ⟨200, .session "Login successful"
        "1.ann@example.org.1710000000.1710086400.your-secret-key-change-this-in-production"
        ⟨1, "Doe", "Ann", "ann@example.org"⟩⟩ := by
  decide!

/-! ## Validation before storage -/

/-- For register, login, create and update: when the validators of the route report an error,
the handler answers 400 with the list of errors and makes no storage call. -/
theorem validation_errors_answer_400 (lib : Libraries) (env : ProcessEnv) (users : List User)
    (now : Nat) (salt : String) (credentials : AuthBody) (isISO8601 : String → Bool)
    (rows : List Transaction) (user : Claims) (id : String) (body : Body) :
    (registerValidation lib credentials ≠ [] →
      register lib env users now salt credentials =
        ⟨⟨400, .validation "Validation errors" (registerValidation lib credentials)⟩, users,
          []⟩) ∧
    (loginValidation lib credentials ≠ [] →
      login lib env users now credentials =
        ⟨⟨400, .validation "Validation errors" (loginValidation lib credentials)⟩, users,
          []⟩) ∧
    (transactionValidation isISO8601 body ≠ [] →
      createTransaction isISO8601 rows now user body =
        ⟨⟨400, .validation "Validation errors" (transactionValidation isISO8601 body)⟩, rows,
          []⟩) ∧
    (idValidation id ++ transactionValidation isISO8601 body ≠ [] →
      updateTransaction isISO8601 rows now user id body =
        ⟨⟨400, .validation "Validation errors"
          (idValidation id ++ transactionValidation isISO8601 body)⟩, rows, []⟩) := by
  refine ⟨?_, ?_, ?_, ?_⟩
  · intro h; unfold register; rw [if_pos h]
  · intro h; unfold login; rw [if_pos h]
  · intro h; unfold createTransaction; rw [if_pos h]
  · intro h; unfold updateTransaction; rw [if_pos h]

/-- C11 fails on `deleteTransaction`: for `DELETE /transactions/abc` the validator of the route
reports that the id is not an integer, and the handler, which does not read the validation
result, runs its `DELETE` statement and answers 404 instead of 400.  For the id `5.0`, which the
validator rejects as well, the statement matches row 5 and the row is deleted. -/
theorem deleteTransaction_skips_validation_result :
    idValidation "abc" = [⟨"params", "id", "Transaction ID must be an integer", "abc"⟩] ∧
    deleteTransaction [otherRow] otherUser "abc" =
      ⟨⟨404, .message "Transaction not found or you do not have permission to delete it"⟩,
        [otherRow], [.run]⟩ ∧
    idValidation "5.0" = [⟨"params", "id", "Transaction ID must be an integer", "5.0"⟩] ∧
    deleteTransaction [otherRow] otherUser "5.0" =
      ⟨⟨200, .message "Transaction deleted successfully"⟩, [], [.run]⟩ ∧
    updateTransaction (fun _ => true) [otherRow] 1710000500 otherUser "abc" sampleBody =
      ⟨⟨400, .validation "Validation errors"
        [⟨"params", "id", "Transaction ID must be an integer", "abc"⟩]⟩, [otherRow], []⟩ := by
  decide!

/-! ## The stored credential -/

/-- What `register` persists: on a valid body whose email is free, the new row holds the
trimmed names, the normalised email and, as password, the result of `bcrypt.hash` on the
password with 12 rounds. -/
theorem register_persists_hash (lib : Libraries) (env : ProcessEnv) (users : List User)
    (now : Nat) (salt : String) (body : AuthBody) (hv : registerValidation lib body = [])
    (hfree : ∀ v ∈ users, v.email ≠ lib.normalizeEmail (fieldText body.email)) :
    (register lib env users now salt body).users =
      users ++ [⟨nextId (users.map (fun u => u.id)), trim (fieldText body.name),
        trim (fieldText body.firstname), lib.normalizeEmail (fieldText body.email),
        lib.bcryptHash (fieldText body.password) 12 salt, now, now⟩] ∧
    (register lib env users now salt body).calls = [.get, .run] := by
  have hany : users.any (fun u => decide (u.email = lib.normalizeEmail (fieldText body.email))) =
      false := by
    rw [List.any_eq_false]
    intro v hv'
    simpa using hfree v hv'
  have hget : getUserByEmail users (.text (lib.normalizeEmail (fieldText body.email))) = none := by
    unfold getUserByEmail
    simp only [List.find?_eq_none, decide_eq_true_eq]
    exact fun u hu => hfree u hu
  have e1 : (sanitizedRegister lib body).email =
      some (lib.normalizeEmail (fieldText body.email)) := rfl
  have e2 : (sanitizedRegister lib body).name = some (trim (fieldText body.name)) := rfl
  have e3 : (sanitizedRegister lib body).firstname = some (trim (fieldText body.firstname)) :=
    rfl
  have e4 : (sanitizedRegister lib body).password = body.password := rfl
  have e5 : ∀ s : String, fieldText (some s) = s := fun _ => rfl
  unfold register
  rw [hv]
  simp only [ne_eq, not_true_eq_false, if_false, e1, e2, e3, e4, e5, bindField, hget, insertUser,
    hany, Bool.false_eq_true]
  cases generateToken lib env now _ <;> exact ⟨rfl, rfl⟩

theorem getUserByEmail_append_new (users : List User) (row : User)
    (hfree : ∀ v ∈ users, v.email ≠ row.email) :
    getUserByEmail (users ++ [row]) (.text row.email) = some row := by
  unfold getUserByEmail
  simp only [List.find?_append]
  have h1 : users.find? (fun u => decide (u.email = row.email)) = none := by
    simp only [List.find?_eq_none, decide_eq_true_eq]
    exact fun u hu => hfree u hu
  rw [h1]
  simp

/-- C13: for a valid registration with a free email, under the contract of the Credential
Store: the value `register` persists in `users.password` is the salted hash of the password,
made with a cost factor of 12, at least 10, and it differs from the plaintext password; a later
`login` with the same email finds that row, the verification of the stored hash is true for the
registered password and false for every other password, and `login` answers 401 exactly when
the password sent is not the registered one. -/
theorem register_stores_salted_hash (lib : Libraries) (env : ProcessEnv) (users : List User)
    (now : Nat) (salt : String) (body : AuthBody)
    (hv : registerValidation lib body = [])
    (hfree : ∀ v ∈ users, v.email ≠ lib.normalizeEmail (fieldText body.email))
    (hlib : credentialContract lib (fieldText body.password) 12 salt) :
    ∃ (row : User) (cost : Nat),
      (register lib env users now salt body).users = users ++ [row] ∧
      row.password = lib.bcryptHash (fieldText body.password) cost salt ∧ 10 ≤ cost ∧
      row.password ≠ fieldText body.password ∧
      lib.bcryptCompare (fieldText body.password) row.password = true ∧
      (∀ other : String, other ≠ fieldText body.password →
        lib.bcryptCompare other row.password = false) ∧
      (∀ (later : Nat) (attempt : AuthBody), loginValidation lib attempt = [] →
        lib.normalizeEmail (fieldText attempt.email) =
          lib.normalizeEmail (fieldText body.email) →
        ((login lib env (register lib env users now salt body).users later attempt).response =
            ⟨401, .message "Invalid email or password"⟩ ↔
          fieldText attempt.password ≠ fieldText body.password)) := by
  have hu := (register_persists_hash lib env users now salt body hv hfree).1
  refine ⟨_, 12, hu, rfl, by decide, hlib.2, ?_, ?_, ?_⟩
  · rw [hlib.1]; simp
  · intro other hne
    rw [hlib.1]; simpa using hne
  · intro later attempt hva hemail
    rw [login_of_valid lib env _ later attempt hva, hu, hemail]
    have hget := getUserByEmail_append_new users
      ⟨nextId (users.map (fun u => u.id)), trim (fieldText body.name),
        trim (fieldText body.firstname), lib.normalizeEmail (fieldText body.email),
        lib.bcryptHash (fieldText body.password) 12 salt, now, now⟩ hfree
    simp only [] at hget
    rw [hget]
    simp only [hlib.1]
    by_cases hp : fieldText attempt.password = fieldText body.password
    · simp only [hp, decide_True, if_true, ne_eq, not_true_eq_false, iff_false]
      cases generateToken lib env later _ <;> simp
    · simp [hp]

theorem register_stores_salted_hash_witness :
    registerValidation sampleLib ⟨some "Roe", some "Bob", some "Bob@Example.org", some "Passw0rd"⟩
        = [] ∧
    credentialContract sampleLib "Passw0rd" 12 "saltsalt" ∧
    ∃ (row : User) (cost : Nat),
      (register sampleLib sampleEnv sampleUsers 1710000000 "saltsalt"
        ⟨some "Roe", some "Bob", some "Bob@Example.org", some "Passw0rd"⟩).users =
          sampleUsers ++ [row] ∧
      row.password = sampleLib.bcryptHash "Passw0rd" cost "saltsalt" ∧ 10 ≤ cost ∧
      row.password ≠ "Passw0rd" ∧
      sampleLib.bcryptCompare "Passw0rd" row.password = true ∧
      (∀ other : String, other ≠ "Passw0rd" →
        sampleLib.bcryptCompare other row.password = false) ∧
      (∀ (later : Nat) (attempt : AuthBody), loginValidation sampleLib attempt = [] →
        sampleLib.normalizeEmail (fieldText attempt.email) =
          sampleLib.normalizeEmail "Bob@Example.org" →
        ((login sampleLib sampleEnv
            (register sampleLib sampleEnv sampleUsers 1710000000 "saltsalt"
              ⟨some "Roe", some "Bob", some "Bob@Example.org", some "Passw0rd"⟩).users
            later attempt).response =
            ⟨401, .message "Invalid email or password"⟩ ↔
          fieldText attempt.password ≠ "Passw0rd")) :=
  have hc : credentialContract sampleLib "Passw0rd" 12 "saltsalt" :=
    ⟨fun candidate => by
      have h : String.mk ((sampleLib.bcryptHash "Passw0rd" 12 "saltsalt").toList.drop 15) =
          "Passw0rd" := by decide!
      show decide (String.mk ((sampleLib.bcryptHash "Passw0rd" 12 "saltsalt").toList.drop 15) =
        candidate) = decide (candidate = "Passw0rd")
      rw [h]
      exact decide_eq_decide.mpr eq_comm, by decide!⟩
  ⟨by decide!, hc,
    register_stores_salted_hash sampleLib sampleEnv sampleUsers 1710000000 "saltsalt"
      ⟨some "Roe", some "Bob", some "Bob@Example.org", some "Passw0rd"⟩ (by decide!)
      (by decide!) hc⟩

/-! ## The password rule -/

/-- On a password without a line terminator the password chain of `registerValidation` passes
if and only if the password has at least 6 characters, a lowercase letter, an uppercase letter
and a digit. -/
theorem passwordValidation_on_one_line (password : String)
    (h : ∀ c ∈ password.toList, isLineTerminator c = false) :
    passwordValidation password = [] ↔
      6 ≤ password.length ∧ password.toList.any Char.isLower = true ∧
        password.toList.any Char.isUpper = true ∧ password.toList.any Char.isDigit = true := by
  have hline : password.toList.takeWhile (fun c => !isLineTerminator c) = password.toList := by
    rw [List.takeWhile_eq_self_iff]
    intro c hc
    simp [h c hc]
  unfold passwordValidation matchesPasswordPattern isLength
  rw [hline]
  simp only [List.append_eq_nil, ite_eq_left_iff, decide_eq_true_eq, Bool.and_eq_true]
  constructor
  · rintro ⟨h1, h2⟩
    have h1' : 6 ≤ password.length := by
      by_contra hc; exact absurd (h1 hc) (by simp)
    have h2' : (password.toList.any Char.isLower = true ∧
        password.toList.any Char.isUpper = true) ∧ password.toList.any Char.isDigit = true := by
      by_contra hc; exact absurd (h2 hc) (by simp)
    exact ⟨h1', h2'.1.1, h2'.1.2, h2'.2⟩
  · rintro ⟨h1, h2, h3, h4⟩
    exact ⟨fun hc => absurd h1 hc, fun hc => absurd ⟨⟨h2, h3⟩, h4⟩ hc⟩

/-- C16 fails on a password with a line break: `ABCDEF1`, a line feed, `abc` has 11 characters
and contains lowercase letters, uppercase letters and a digit, yet the pattern, whose `.` stops
at the line feed, finds no lowercase letter and the password is rejected; `register` answers
400. -/
theorem password_with_line_break_rejected :
    6 ≤ "ABCDEF1\nabc".length ∧
    "ABCDEF1\nabc".toList.any Char.isLower = true ∧
    "ABCDEF1\nabc".toList.any Char.isUpper = true ∧
    "ABCDEF1\nabc".toList.any Char.isDigit = true ∧
    passwordValidation "ABCDEF1\nabc" =
      [⟨"body", "password",
        "Password must contain at least one lowercase letter, one uppercase letter, and one number",
        "ABCDEF1\nabc"⟩] ∧
    register sampleLib sampleEnv [] 1710000000 "saltsalt"
        ⟨some "Doe", some "Ann", some "ann@example.org", some "ABCDEF1\nabc"⟩ =
      ⟨⟨400, .validation "Validation errors"
        [⟨"body", "password",
          "Password must contain at least one lowercase letter, one uppercase letter, and one number",
          "ABCDEF1\nabc"⟩]⟩, [], []⟩ ∧
    passwordValidation "abcABCDEF1" = [] := by
  decide!

/-! ## Errors sent to the client -/

/-- C14 fails in the handlers: in a production environment a create request that passes
validation and has no category makes the `INSERT` fail, and the handler answers 500 with the
engine's message in the `error` field of the body.  The error middleware of `app.js`, in the same
environment, sends `Internal Server Error` in place of the message. -/
theorem storage_error_message_sent_to_client :
    sampleEnv.NODE_ENV = some "production" ∧
    createTransaction (fun _ => true) [] 1710000500 sampleUser noCategoryBody =
      ⟨⟨500, .failure "Server error creating transaction"
          "SQLITE_CONSTRAINT: NOT NULL constraint failed: transactions.category"⟩, [], [.run]⟩ ∧
    errorMiddleware sampleEnv
        ⟨"SQLITE_CONSTRAINT: NOT NULL constraint failed: transactions.category"⟩ =
      ⟨500, .failure "Something went wrong!" "Internal Server Error"⟩ := by
  decide!

/-- The error middleware sends the message of the error in development mode only. -/
theorem errorMiddleware_hides_message (env : ProcessEnv) (err : JsError)
    (h : env.NODE_ENV ≠ some "development") :
    errorMiddleware env err = ⟨500, .failure "Something went wrong!" "Internal Server Error"⟩ := by
  unfold errorMiddleware
  rw [if_neg h]

/-! ## Pagination metadata -/

/-- C17 fails for a fractional value.  With `limit=1.5` over three rows the request succeeds,
`LIMIT 1 OFFSET 0` is run and `limit = 1` is reported, but `pages` is `ceil(3 / 1.5) = 2` and not
`ceil(3 / 1) = 3`.  With `page=2.5&limit=10` over 25 rows the request succeeds, `page = 2` is
reported, and the offset run is 15 and not `(2 - 1) * 10`. -/
theorem fractional_paging_metadata_mismatch :
    getTransactions (sampleRows 3) sampleUser { noQuery with limit := some "1.5" } =
      ⟨⟨200, .listing [sampleRow 2] ⟨.fin 1, .fin 1, 3, .fin 2⟩⟩, sampleRows 3, [.all, .get]⟩ ∧
    (listQuery sampleUser.id { noQuery with limit := some "1.5" }).2 =
      [.num (.fin 1), .num (.fin 1), .num (.fin 0)] ∧
    (JsNum.div (.fin 3) (.fin 1)).ceil = .fin 3 ∧
    getTransactions (sampleRows 25) sampleUser
        { noQuery with page := some "2.5", limit := some "10" } =
      ⟨⟨200, .listing (((sampleRows 25).reverse.drop 15).take 10) ⟨.fin 2, .fin 10, 25, .fin 3⟩⟩,
        sampleRows 25, [.all, .get]⟩ ∧
    (listQuery sampleUser.id { noQuery with page := some "2.5", limit := some "10" }).2 =
      [.num (.fin 1), .num (.fin 10), .num (.fin 15)] := by
  decide!

/-! ## Validation and the constraints of the table -/

/-- C18 fails on the category: a body without a category passes `transactionValidation`, the
column `category` is `NOT NULL`, and both `createTransaction` and `updateTransaction` (by the
owner of the row) answer 500 with the constraint error. -/
theorem validated_body_without_category_fails :
    transactionValidation (fun _ => true) noCategoryBody = [] ∧
    createTransaction (fun _ => true) [] 1710000500 sampleUser noCategoryBody =
      ⟨⟨500, .failure "Server error creating transaction"
          "SQLITE_CONSTRAINT: NOT NULL constraint failed: transactions.category"⟩, [], [.run]⟩ ∧
    updateTransaction (fun _ => true) [otherRow] 1710000500 otherUser "5" noCategoryBody =
      ⟨⟨500, .failure "Server error updating transaction"
          "SQLITE_CONSTRAINT: NOT NULL constraint failed: transactions.category"⟩, [otherRow],
        [.run]⟩ ∧
    createTransaction (fun _ => true) [] 1710000500 sampleUser sampleBody =
      ⟨⟨201, .created "Transaction created successfully"
          ⟨1, some "expense", some "12.50", some "lunch", some "food", none, some "2024-03-15"⟩⟩,
        [⟨1, 1, "expense", 25 / 2, "lunch", "food", none, "2024-03-15", 1710000500, 1710000500⟩],
        [.run]⟩ := by
  decide!

end ExpenseApp
